import Mathlib

/-!
# CanAirIO sensor library: PM-sensor acquisition (`src/Sensors.cpp`)

A shallow embedding of the particulate-matter part of the `Sensors` facade:
the serial frame reader (`hwSerialRead`), the Generic and Panasonic frame
decoders, the Sensirion driver interaction, the auto-detection loop of
`pmSensorInit`, the sample-time gated `loop()`, and the setters and getters,
with the `"%03d"` rendering of the string getters.

Modelling conventions.

* The object state is the record `Sensors`.  Besides the C++ members it holds
  the environment the code talks to (serial channel, Sensirion driver, the
  millisecond clock) as scripted oracles, and the observable effects
  (callback invocations) as traces.
* A `String` holding a frame is a `List Nat` of the unsigned values (0..255)
  of its `char`s.  `String::operator[]` yields 0 for an index past the end,
  which is `byteAt`.  Whether plain `char` is signed is a property of the
  target, kept as the parameter `charSigned`.
* `uint16_t` members are `Nat` values stored modulo `2^16` (`toU16`).
* `DEBUG(...)` only prints to the debug port and `delay(...)` only blocks;
  neither touches a modelled member, so they are left out, and the functions
  that do nothing else (`pmSensirionErrtoMess`, `pmSensirionErrorloop`,
  `getSensirionDeviceInfo`) leave the state as it is.  The humidity sensor
  (`am2320Read`) writes the two float members `humi`/`temp` only and is left
  out for the same reason.
* `int` counters are unbounded naturals: they stay far below `2^31` for any
  retry budget that fits an `int`.
* The user callbacks are recorded in traces and are assumed not to call back
  into the facade.
-/

namespace CanAirIO

/-! ## Constants declared outside `Sensors.cpp` -/

/-- Modelled from the spec: first enumerator of the `DEVICE_TYPE` enum of
`Sensors.hpp` (the header is not among the sources); the spec lists the kinds as
Honeywell, Panasonic, Sensirion, with Unset being -1. -/
def Honeywell : Int := 0

/-- Modelled from the spec: second enumerator of the `DEVICE_TYPE` enum of
`Sensors.hpp`; `pmSensorInit` treats every type `<= 1` as the 9600 baud
Honeywell/Panasonic family. -/
def Panasonic : Int := 1

/-- Modelled from the spec: third enumerator of the `DEVICE_TYPE` enum of
`Sensors.hpp`. -/
def Sensirion : Int := 2

/-- Modelled from the spec: result code "OK" of the Sensirion vendor driver
(`GetValues`), declared in the driver's header. -/
def ERR_OK : Nat := 0

/-- Modelled from the spec: result code "data-length error" of the Sensirion
vendor driver, declared in the driver's header. -/
def ERR_DATALENGTH : Nat := 1

/-! ## State -/

/-- Scripted behaviour of the Sensirion vendor driver object `sps30`.  The
`n`-th invocation of a driver function returns the value of its script at `n`;
the `...Calls` counters give the number of invocations made so far.  A
`GetValues` answer is the result code together with `round(val.MassPM2)` and
`round(val.MassPM10)`. -/
structure SPS30 where
  beginRet : Nat → Bool
  probeRet : Nat → Bool
  resetRet : Nat → Bool
  startRet : Nat → Bool
  getValuesRet : Nat → Nat × Nat × Nat
  beginCalls : Nat
  probeCalls : Nat
  resetCalls : Nat
  startCalls : Nat
  getValuesCalls : Nat

/-- The `Sensors` object together with its environment.

* `serial` is the channel `_serial`: the list of byte bursts still to come, one
  burst being what the inner `while (_serial->available() > 0)` loop of
  `hwSerialRead` drains in one pass (possibly nothing); an exhausted list is a
  silent channel.
* `millisRet`/`millisCalls` script the clock `millis()`.
* `_onDataCb`/`_onErrorCb` say whether a callback is registered;
  `dataCbCalls` counts the invocations of the data callback and `errorCbCalls`
  lists the messages handed to the error callback, oldest first.
* `autoDetectRuns` counts the executions of `pmSensorAutoDetect`.
* `SENSOR_RETRY` is the macro of `Sensors.hpp`, `charSigned` the signedness of
  plain `char` on the target. -/
structure Sensors where
  pm1 : Nat
  pm25 : Nat
  pm10 : Nat
  dataReady : Bool
  device_type : Int
  device_selected : String
  sample_time : Int
  pmLoopTimeStamp : Nat
  _onDataCb : Bool
  _onErrorCb : Bool
  SENSOR_RETRY : Nat
  charSigned : Bool
  serial : List (List Nat)
  sps30 : SPS30
  millisRet : Nat → Nat
  millisCalls : Nat
  dataCbCalls : Nat
  errorCbCalls : List String
  autoDetectRuns : Nat

/-! ## Characters and 16-bit stores -/

/-- Value of `txtMsg[i]` as an unsigned byte; `String::operator[]` returns 0
when `i` is not below the length. -/
def byteAt (txtMsg : List Nat) (i : Nat) : Nat := txtMsg.getD i 0

/-- Value of a `char` holding the byte `b` after integer promotion. -/
def charToInt (charSigned : Bool) (b : Nat) : Int :=
  if charSigned && decide (128 ≤ b) then (b : Int) - 256 else (b : Int)

/-- Value of `txtMsg[i]` after integer promotion. -/
def charAt (charSigned : Bool) (txtMsg : List Nat) (i : Nat) : Int :=
  charToInt charSigned (byteAt txtMsg i)

/-- Conversion of an `int` to `uint16_t`. -/
def toU16 (x : Int) : Nat := (x % 65536).toNat

/-! ## Error reporting -/

/-- The statement `if(_onErrorCb)_onErrorCb(msg);`. -/
def callErrorCb (msg : String) (s : Sensors) : Sensors :=
  if s._onErrorCb then { s with errorCbCalls := s.errorCbCalls ++ [msg] } else s

/-- The statement `if(_onDataCb) _onDataCb();`. -/
def callDataCb (s : Sensors) : Sensors :=
  if s._onDataCb then { s with dataCbCalls := s.dataCbCalls + 1 } else s

/-- `Sensors::onPmSensorError`: hands `msg` to the error callback when one is
registered (after printing it to the debug port). -/
def onPmSensorError (msg : String) (s : Sensors) : Sensors := callErrorCb msg s

def msgReadFail : String := "-->[E][PMSENSOR] sensor read fail!"

def msgGenericRange : String := "-->[E][PMSENSOR] out of range pm25 > 1000"

def msgGenericHeader : String := "-->[E][PMSENSOR] invalid Generic sensor header!"

def msgPanasonicRange : String := "-->[E][PMSENSOR] out of range pm25 > 2000"

def msgPanasonicHeader : String := "-->[E][PMSENSOR] invalid Panasonic sensor header!"

def msgSensirionRange : String := "-->[E][SPS30] Sensirion out of range pm25 > 1000"

def msgNotConfigured : String := "-->[W][SENSORS] PM sensor not configured!"

def msgDetectionFailed : String := "-->[E][PMSENSOR] detection failed!"

/-! ## `hwSerialRead` -/

/-- One pass of the inner loop of `hwSerialRead`,
`while (_serial->available() > 0) txtMsg += (char)_serial->read();`:
the next burst of the channel is appended, each byte narrowed to a `char`. -/
def drain (txtMsg : List Nat) (serial : List (List Nat)) : List Nat × List (List Nat) :=
  match serial with
  | [] => (txtMsg, [])
  | burst :: rest => (txtMsg ++ burst.map (fun b => b % 256), rest)

/-- The loop condition `txtMsg.length() < 32 && try_sensor_read++ < SENSOR_RETRY`
of `hwSerialRead`: its truth value and the value of `try_sensor_read` after it
was evaluated (the increment is skipped when the left operand is false). -/
def hwLoopCond (retry : Nat) (txtMsg : List Nat) (try_sensor_read : Nat) : Bool × Nat :=
  if txtMsg.length < 32 then (decide (try_sensor_read < retry), try_sensor_read + 1)
  else (false, try_sensor_read)

/-- The outer `while` loop of `hwSerialRead`, returning `txtMsg`,
`try_sensor_read` and the channel on exit.  The argument after `retry` bounds the
number of passes; `hwSerialRead` supplies `SENSOR_RETRY`, which is never
exceeded (`hwSerialReadLoop_fuel`). -/
def hwSerialReadLoop (retry : Nat) :
    Nat → Nat → List Nat → List (List Nat) → List Nat × Nat × List (List Nat)
  | 0, try_sensor_read, txtMsg, serial =>
    (txtMsg, (hwLoopCond retry txtMsg try_sensor_read).2, serial)
  | fuel + 1, try_sensor_read, txtMsg, serial =>
    if (hwLoopCond retry txtMsg try_sensor_read).1 then
      hwSerialReadLoop retry fuel (hwLoopCond retry txtMsg try_sensor_read).2
        (drain txtMsg serial).1 (drain txtMsg serial).2
    else (txtMsg, (hwLoopCond retry txtMsg try_sensor_read).2, serial)

/-- `Sensors::hwSerialRead`: the frame read and the state afterwards. -/
def hwSerialRead (s : Sensors) : List Nat × Sensors :=
  let r := hwSerialReadLoop s.SENSOR_RETRY s.SENSOR_RETRY 0 [] s.serial
  if r.2.1 > s.SENSOR_RETRY then
    (r.1, onPmSensorError msgReadFail { s with serial := r.2.2 })
  else (r.1, { s with serial := r.2.2 })

/-! ## Frame decoders -/

/-- `Sensors::pmGenericRead`: Honeywell/Plantower frame read. -/
def pmGenericRead (s : Sensors) : Bool × Sensors :=
  let txtMsg := (hwSerialRead s).1
  let s1 := (hwSerialRead s).2
  if charAt s.charSigned txtMsg 0 = 66 then
    if charAt s.charSigned txtMsg 1 = 77 then
      let s2 := { s1 with
        pm25 := toU16 (charAt s.charSigned txtMsg 6 * 256 + (byteAt txtMsg 7 : Int)) }
      let s3 := { s2 with
        pm10 := toU16 (charAt s.charSigned txtMsg 8 * 256 + (byteAt txtMsg 9 : Int)) }
      if s3.pm25 > 1000 && s3.pm10 > 1000 then
        (false, onPmSensorError msgGenericRange s3)
      else (true, s3)
    else (false, onPmSensorError msgGenericHeader s1)
  else (false, s1)

/-- `Sensors::pmPanasonicRead`: Panasonic SNGC frame read. -/
def pmPanasonicRead (s : Sensors) : Bool × Sensors :=
  let txtMsg := (hwSerialRead s).1
  let s1 := (hwSerialRead s).2
  if charAt s.charSigned txtMsg 0 = 2 then
    let s2 := { s1 with
      pm25 := toU16 (charAt s.charSigned txtMsg 6 * 256 + (byteAt txtMsg 5 : Int)) }
    let s3 := { s2 with
      pm10 := toU16 (charAt s.charSigned txtMsg 10 * 256 + (byteAt txtMsg 9 : Int)) }
    if s3.pm25 > 2000 && s3.pm10 > 2000 then
      (false, onPmSensorError msgPanasonicRange s3)
    else (true, s3)
  else (false, onPmSensorError msgPanasonicHeader s1)

/-! ## Sensirion driver interaction -/

/-- `Sensors::pmSensirionErrtoMess`: fetches the description of the driver code
and prints it to the debug port; no member changes. -/
def pmSensirionErrtoMess (s : Sensors) : Sensors := s

/-- `Sensors::pmSensirionErrorloop`: prints a message to the debug port, through
`pmSensirionErrtoMess` when the code is non-zero; no member changes. -/
def pmSensirionErrorloop (r : Nat) (s : Sensors) : Sensors :=
  if r ≠ 0 then pmSensirionErrtoMess s else s

/-- `Sensors::getSensirionDeviceInfo`: queries serial number, product name and
version for the debug port; no member changes. -/
def getSensirionDeviceInfo (s : Sensors) : Sensors := s

/-- The call `sps30.GetValues(&val)`: the scripted answer and the state with the
invocation counted. -/
def spsGetValues (s : Sensors) : (Nat × Nat × Nat) × Sensors :=
  (s.sps30.getValuesRet s.sps30.getValuesCalls,
    { s with sps30 := { s.sps30 with getValuesCalls := s.sps30.getValuesCalls + 1 } })

/-- The `do ... while (ret != ERR_OK)` loop of `pmSensirionRead`, started with
the given `error_cnt` (a `uint8_t`).  The result is `none` when the loop body
executed `return false`, and the rounded mass values when the loop was left with
`ret == ERR_OK`.  The first argument bounds the number of passes;
`pmSensirionRead` supplies 5, which is never exceeded
(`pmSensirionReadLoop_fuel`). -/
def pmSensirionReadLoop : Nat → Nat → Sensors → Option (Nat × Nat) × Sensors
  | 0, _, s => (none, s)
  | fuel + 1, error_cnt, s =>
    if (spsGetValues s).1.1 = ERR_DATALENGTH then
      if error_cnt > 3 then (none, (spsGetValues s).2)
      else pmSensirionReadLoop fuel ((error_cnt + 1) % 256) (spsGetValues s).2
    else if (spsGetValues s).1.1 ≠ ERR_OK then (none, pmSensirionErrtoMess (spsGetValues s).2)
    else (some (spsGetValues s).1.2, (spsGetValues s).2)

/-- `Sensors::pmSensirionRead`: Sensirion SPS30 read through the vendor driver. -/
def pmSensirionRead (s : Sensors) : Bool × Sensors :=
  match pmSensirionReadLoop 5 0 s with
  | (none, s1) => (false, s1)
  | (some v, s1) =>
    let s2 := { s1 with pm25 := v.1 % 65536 }
    let s3 := { s2 with pm10 := v.2 % 65536 }
    if s3.pm25 > 1000 && s3.pm10 > 1000 then
      (false, onPmSensorError msgSensirionRange s3)
    else (true, s3)

/-- The call `sps30.begin(SP30_COMMS)`. -/
def spsBegin (s : Sensors) : Bool × Sensors :=
  (s.sps30.beginRet s.sps30.beginCalls,
    { s with sps30 := { s.sps30 with beginCalls := s.sps30.beginCalls + 1 } })

/-- The call `sps30.probe()`. -/
def spsProbe (s : Sensors) : Bool × Sensors :=
  (s.sps30.probeRet s.sps30.probeCalls,
    { s with sps30 := { s.sps30 with probeCalls := s.sps30.probeCalls + 1 } })

/-- The call `sps30.reset()`. -/
def spsReset (s : Sensors) : Bool × Sensors :=
  (s.sps30.resetRet s.sps30.resetCalls,
    { s with sps30 := { s.sps30 with resetCalls := s.sps30.resetCalls + 1 } })

/-- The call `sps30.start()`. -/
def spsStart (s : Sensors) : Bool × Sensors :=
  (s.sps30.startRet s.sps30.startCalls,
    { s with sps30 := { s.sps30 with startCalls := s.sps30.startCalls + 1 } })

/-- `Sensors::pmSensirionInit`: communication start, probe, reset and
measurement start, in this order. -/
def pmSensirionInit (s : Sensors) : Bool × Sensors :=
  let s1 := if !(spsBegin s).1 then pmSensirionErrorloop 0 (spsBegin s).2 else (spsBegin s).2
  let s2 := if !(spsProbe s1).1 then pmSensirionErrorloop 0 (spsProbe s1).2
    else getSensirionDeviceInfo (spsProbe s1).2
  let s3 := if !(spsReset s2).1 then pmSensirionErrorloop 0 (spsReset s2).2 else (spsReset s2).2
  if (spsStart s3).1 = true then (true, (spsStart s3).2)
  else (false, pmSensirionErrorloop 0 (spsStart s3).2)

/-! ## Reading and detection -/

/-- `Sensors::pmSensorRead`: dispatch on the selected device type. -/
def pmSensorRead (s : Sensors) : Bool × Sensors :=
  if s.device_type = Honeywell then pmGenericRead s
  else if s.device_type = Panasonic then pmPanasonicRead s
  else if s.device_type = Sensirion then pmSensirionRead s
  else (false, s)

/-- Entry of `pmSensorAutoDetect`: the execution is counted (and the channel is
given `delay(1000)` to synchronise). -/
def enterAutoDetect (s : Sensors) : Sensors :=
  { s with autoDetectRuns := s.autoDetectRuns + 1 }

/-- `Sensors::pmSensorAutoDetect`: one detection attempt. -/
def pmSensorAutoDetect (pms_type : Int) (s0 : Sensors) : Bool × Sensors :=
  let s := enterAutoDetect s0
  if pms_type = Sensirion then
    if (pmSensirionInit s).1 then
      (true, { (pmSensirionInit s).2 with
        device_selected := "SENSIRION", device_type := Sensirion })
    else (false, (pmSensirionInit s).2)
  else
    if (pmGenericRead s).1 then
      (true, { (pmGenericRead s).2 with
        device_selected := "HONEYWELL", device_type := Honeywell })
    else if (pmPanasonicRead (pmGenericRead s).2).1 then
      (true, { (pmPanasonicRead (pmGenericRead s).2).2 with
        device_selected := "PANASONIC", device_type := Panasonic })
    else (false, (pmPanasonicRead (pmGenericRead s).2).2)

/-- The loop `while (!pmSensorAutoDetect(pms_type) && try_sensor_init++ < 2);`
of `pmSensorInit`, started with the given `try_sensor_init`.  The argument after
`pms_type` bounds the number of repetitions; `pmSensorInit` supplies 2, which is
never exceeded (`pmSensorInitLoop_fuel`). -/
def pmSensorInitLoop (pms_type : Int) : Nat → Nat → Sensors → Sensors
  | 0, _, s => (pmSensorAutoDetect pms_type s).2
  | fuel + 1, try_sensor_init, s =>
    if !(pmSensorAutoDetect pms_type s).1 && decide (try_sensor_init < 2) then
      pmSensorInitLoop pms_type fuel (try_sensor_init + 1) (pmSensorAutoDetect pms_type s).2
    else (pmSensorAutoDetect pms_type s).2

/-- `Sensors::pmSensorInit`: the detection loop, then the report. -/
def pmSensorInit (pms_type : Int) (s : Sensors) : Bool × Sensors :=
  let s1 := pmSensorInitLoop pms_type 2 0 s
  if s1.device_type ≥ 0 then (true, s1)
  else (false, callErrorCb msgDetectionFailed s1)

/-- `Sensors::init`: PM sensor initialisation (the humidity sensor start does
not touch a modelled member). -/
def init (pms_type : Int) (s : Sensors) : Sensors := (pmSensorInit pms_type s).2

/-! ## The polling loop -/

/-- The call `millis()`: an `unsigned long` of 32 bits. -/
def millis (s : Sensors) : Nat × Sensors :=
  (s.millisRet s.millisCalls % 2 ^ 32, { s with millisCalls := s.millisCalls + 1 })

/-- The gate `millis() - pmLoopTimeStamp > sample_time * 1000` of `loop()` for
the clock value `now`: the difference is taken in `uint_fast64_t` (64 bits) and
the `int` product is converted to that type for the comparison. -/
def gateOpen (now : Nat) (s : Sensors) : Bool :=
  decide ((s.sample_time * 1000) % 2 ^ 64 < ((now : Int) - (s.pmLoopTimeStamp : Int)) % 2 ^ 64)

/-- First statements of the body of the `if` of `Sensors::loop`, up to the call
of `pmSensorRead`: `dataReady = false; pmLoopTimeStamp = millis();` (and the
humidity read). -/
def loopPrepare (s : Sensors) : Sensors :=
  let s1 := { s with dataReady := false }
  { (millis s1).2 with pmLoopTimeStamp := (millis s1).1 }

/-- The body of the `if` of `Sensors::loop`, entered with the state left by the
gate's `millis()` call. -/
def loopBody (s : Sensors) : Sensors :=
  let s2 := loopPrepare s
  if (pmSensorRead s2).1 then
    { callDataCb (pmSensorRead s2).2 with dataReady := true }
  else
    { callErrorCb msgNotConfigured (pmSensorRead s2).2 with dataReady := false }

/-- `Sensors::loop`. -/
def loop (s : Sensors) : Sensors :=
  if gateOpen (millis s).1 s then loopBody (millis s).2 else (millis s).2

/-! ## Setters and getters -/

/-- `Sensors::setSampleTime`. -/
def setSampleTime (seconds : Int) (s : Sensors) : Sensors := { s with sample_time := seconds }

/-- `Sensors::setOnDataCallBack`; the argument says whether the pointer is
non-null. -/
def setOnDataCallBack (cb : Bool) (s : Sensors) : Sensors := { s with _onDataCb := cb }

/-- `Sensors::setOnErrorCallBack`; the argument says whether the pointer is
non-null. -/
def setOnErrorCallBack (cb : Bool) (s : Sensors) : Sensors := { s with _onErrorCb := cb }

/-- `Sensors::isDataReady`. -/
def isDataReady (s : Sensors) : Bool := s.dataReady

/-- `Sensors::getPM1`. -/
def getPM1 (s : Sensors) : Nat := s.pm1

/-- `Sensors::getPM25`. -/
def getPM25 (s : Sensors) : Nat := s.pm25

/-- `Sensors::getPM10`. -/
def getPM10 (s : Sensors) : Nat := s.pm10

/-- The conversion `sprintf(output, "%03d", value)` for a non-negative value:
the decimal digits, padded with zeros on the left to a width of 3. -/
def sprintf03d (n : Nat) : List Char :=
  List.replicate (3 - (Nat.digits 10 n).length) '0'
    ++ (Nat.digits 10 n).reverse.map (fun d => Char.ofNat (48 + d))

/-- Size of the local `char output[5]` of the three string getters. -/
def outputSize : Nat := 5

/-- `Sensors::getStringPM1`: the characters `sprintf` writes into `output`
(a terminating NUL follows them). -/
def getStringPM1 (s : Sensors) : List Char := sprintf03d (getPM1 s)

/-- `Sensors::getStringPM25`: the characters `sprintf` writes into `output`
(a terminating NUL follows them). -/
def getStringPM25 (s : Sensors) : List Char := sprintf03d (getPM25 s)

/-- `Sensors::getStringPM10`: the characters `sprintf` writes into `output`
(a terminating NUL follows them). -/
def getStringPM10 (s : Sensors) : List Char := sprintf03d (getPM10 s)

/-- `Sensors::isPmSensorConfigured`. -/
def isPmSensorConfigured (s : Sensors) : Bool := decide (s.device_type ≥ 0)

/-- `Sensors::getPmDeviceSelected`. -/
def getPmDeviceSelected (s : Sensors) : String := s.device_selected

/-- `Sensors::getPmDeviceTypeSelected`. -/
def getPmDeviceTypeSelected (s : Sensors) : Int := s.device_type

/-! ## Concrete states -/

/-- A Sensirion driver with no device attached: every step fails and
`GetValues` reports the data-length error. -/
def sps30Silent : SPS30 :=
  { beginRet := fun _ => false, probeRet := fun _ => false, resetRet := fun _ => false,
    startRet := fun _ => false, getValuesRet := fun _ => (ERR_DATALENGTH, 0, 0),
    beginCalls := 0, probeCalls := 0, resetCalls := 0, startCalls := 0, getValuesCalls := 0 }

/-- Modelled from the spec: the state of a `Sensors` object on which nothing
has run yet, as given by the member initialisers of `Sensors.hpp` (not among
the sources): PM values 0, no data ready, device type Unset (-1), no callback
registered.  The sample time, the retry budget, the signedness of `char`, the
pending channel traffic and the clock script are parameters. -/
def fresh (sample_time : Int) (retry : Nat) (charSigned : Bool) (serial : List (List Nat))
    (clock : Nat → Nat) : Sensors :=
  { pm1 := 0, pm25 := 0, pm10 := 0, dataReady := false, device_type := -1,
    device_selected := "", sample_time := sample_time, pmLoopTimeStamp := 0,
    _onDataCb := false, _onErrorCb := false, SENSOR_RETRY := retry,
    charSigned := charSigned, serial := serial, sps30 := sps30Silent,
    millisRet := clock, millisCalls := 0, dataCbCalls := 0, errorCbCalls := [],
    autoDetectRuns := 0 }

/-! ## Vocabulary of the statements -/

/-- The members of `s` with `pm25` and `pm10` replaced: what a decoder has stored
once the header matched. -/
def stored (s : Sensors) (v25 v10 : Nat) : Sensors := { s with pm25 := v25, pm10 := v10 }

/-- The bytes the channel hands over during its next `k` passes, as stored in the
frame. -/
def collected (serial : List (List Nat)) (k : Nat) : List Nat :=
  ((serial.take k).flatten).map (fun b => b % 256)

/-- The relation `Kept s t`: the state `t` has the members of `s` other than
`pm25`, `pm10`, the channel, the driver and the error-callback trace. -/
structure Kept (s t : Sensors) : Prop where
  pm1 : t.pm1 = s.pm1
  dataReady : t.dataReady = s.dataReady
  device_type : t.device_type = s.device_type
  device_selected : t.device_selected = s.device_selected
  sample_time : t.sample_time = s.sample_time
  pmLoopTimeStamp : t.pmLoopTimeStamp = s.pmLoopTimeStamp
  onDataCb : t._onDataCb = s._onDataCb
  onErrorCb : t._onErrorCb = s._onErrorCb
  retry : t.SENSOR_RETRY = s.SENSOR_RETRY
  charSigned : t.charSigned = s.charSigned
  millisRet : t.millisRet = s.millisRet
  millisCalls : t.millisCalls = s.millisCalls
  dataCbCalls : t.dataCbCalls = s.dataCbCalls
  autoDetectRuns : t.autoDetectRuns = s.autoDetectRuns

/-- The state after `k` executions of `pmSensorAutoDetect` in a row. -/
def afterAttempts (pms_type : Int) : Nat → Sensors → Sensors
  | 0, s => s
  | k + 1, s => (pmSensorAutoDetect pms_type (afterAttempts pms_type k s)).2

/-- A freshly constructed object with both callbacks registered, sample time 5,
and a clock that advances 6 seconds per reading. -/
def bench (retry : Nat) (charSigned : Bool) (serial : List (List Nat)) : Sensors :=
  setOnErrorCallBack true (setOnDataCallBack true
    (fresh 5 retry charSigned serial (fun n => 6000 * (n + 1))))

/-- The state `s` with Honeywell selected, as a successful detection leaves it. -/
def withHoneywell (s : Sensors) : Sensors :=
  { s with device_selected := "HONEYWELL", device_type := Honeywell }

/-- The ten bytes 0x42,0x4D,0,0,0,0,0x01,0x90,0x00,0x64 of the end-to-end
example of the spec (pm25 = 400, pm10 = 100). -/
def tenBytes : List Nat := [0x42, 0x4D, 0, 0, 0, 0, 0x01, 0x90, 0x00, 0x64]

/-- A 32-byte frame with the given ten leading bytes and zero padding. -/
def padded (b0 b1 b2 b3 b4 b5 b6 b7 b8 b9 : Nat) : List Nat :=
  [b0, b1, b2, b3, b4, b5, b6, b7, b8, b9] ++ List.replicate 22 0

/-- The state `s` with Panasonic selected, as a successful detection leaves it. -/
def withPanasonic (s : Sensors) : Sensors :=
  { s with device_selected := "PANASONIC", device_type := Panasonic }

/-- Whether a frame starts with the header the decoder of the given device type
looks for: 0x42, 0x4D for Honeywell, 0x02 for Panasonic. -/
def headerMatches (device_type : Int) (frame : List Nat) : Bool :=
  if device_type = Honeywell then
    decide (byteAt frame 0 = 0x42) && decide (byteAt frame 1 = 0x4D)
  else if device_type = Panasonic then decide (byteAt frame 0 = 0x02)
  else false

/-- The relation `Appends n s t`: the error-callback trace of `t` is that of `s`
followed by at most `n` further messages. -/
def Appends (n : Nat) (s t : Sensors) : Prop :=
  ∃ more : List String, t.errorCbCalls = s.errorCbCalls ++ more ∧ more.length ≤ n

/-- A Sensirion driver whose communication start, probe and reset fail while
the measurement start succeeds. -/
def sps30StartOnly : SPS30 :=
  { beginRet := fun _ => false, probeRet := fun _ => false, resetRet := fun _ => false,
    startRet := fun _ => true, getValuesRet := fun _ => (ERR_DATALENGTH, 0, 0),
    beginCalls := 0, probeCalls := 0, resetCalls := 0, startCalls := 0, getValuesCalls := 0 }

theorem toU16_char (cs : Bool) (hi lo : Nat) (hhi : hi < 256) (hlo : lo < 256) :
    toU16 (charToInt cs hi * 256 + (lo : Int)) = hi * 256 + lo := by
  unfold toU16 charToInt
  split <;> omega

theorem charToInt_small (cs : Bool) (b : Nat) (hb : b < 128) : charToInt cs b = (b : Int) := by
  unfold charToInt
  split
  · rename_i h
    simp at h
    omega
  · rfl

theorem charToInt_eq_iff (cs : Bool) (b k : Nat) (hb : b < 256) (hk : k < 128) :
    charToInt cs b = (k : Int) ↔ b = k := by
  unfold charToInt
  split
  · rename_i h
    simp at h
    omega
  · omega

/-! ## Facts about `hwSerialRead` -/

theorem byteAt_lt (txtMsg : List Nat) (h : ∀ b ∈ txtMsg, b < 256) (i : Nat) :
    byteAt txtMsg i < 256 := by
  unfold byteAt
  rw [List.getD_eq_getElem?_getD]
  cases hi : txtMsg[i]? with
  | none => simp
  | some b =>
    simp
    exact h b (List.getElem?_mem hi)

theorem drain_bytes (txtMsg : List Nat) (serial : List (List Nat))
    (h : ∀ b ∈ txtMsg, b < 256) : ∀ b ∈ (drain txtMsg serial).1, b < 256 := by
  cases serial with
  | nil => simpa [drain] using h
  | cons burst rest =>
    intro b hb
    simp only [drain, List.mem_append, List.mem_map] at hb
    rcases hb with hb | ⟨c, _, rfl⟩
    · exact h b hb
    · exact Nat.mod_lt _ (by decide)

theorem hwSerialReadLoop_bytes (retry fuel : Nat) :
    ∀ (t : Nat) (txtMsg : List Nat) (serial : List (List Nat)),
      (∀ b ∈ txtMsg, b < 256) →
      ∀ b ∈ (hwSerialReadLoop retry fuel t txtMsg serial).1, b < 256 := by
  induction fuel with
  | zero => intro t txtMsg serial h; simpa [hwSerialReadLoop] using h
  | succ n ih =>
    intro t txtMsg serial h
    simp only [hwSerialReadLoop]
    split
    · exact ih _ _ _ (drain_bytes txtMsg serial h)
    · simpa using h

theorem hwSerialRead_bytes (s : Sensors) : ∀ b ∈ (hwSerialRead s).1, b < 256 := by
  have h := hwSerialReadLoop_bytes s.SENSOR_RETRY s.SENSOR_RETRY 0 [] s.serial (by simp)
  unfold hwSerialRead
  simp only []
  split <;> exact h

theorem hwSerialRead_byteAt_lt (s : Sensors) (i : Nat) : byteAt (hwSerialRead s).1 i < 256 :=
  byteAt_lt _ (hwSerialRead_bytes s) i

theorem Kept.refl (s : Sensors) : Kept s s := by
  constructor <;> rfl

theorem Kept.trans {a b c : Sensors} (h1 : Kept a b) (h2 : Kept b c) : Kept a c := by
  constructor
  · rw [h2.pm1, h1.pm1]
  · rw [h2.dataReady, h1.dataReady]
  · rw [h2.device_type, h1.device_type]
  · rw [h2.device_selected, h1.device_selected]
  · rw [h2.sample_time, h1.sample_time]
  · rw [h2.pmLoopTimeStamp, h1.pmLoopTimeStamp]
  · rw [h2.onDataCb, h1.onDataCb]
  · rw [h2.onErrorCb, h1.onErrorCb]
  · rw [h2.retry, h1.retry]
  · rw [h2.charSigned, h1.charSigned]
  · rw [h2.millisRet, h1.millisRet]
  · rw [h2.millisCalls, h1.millisCalls]
  · rw [h2.dataCbCalls, h1.dataCbCalls]
  · rw [h2.autoDetectRuns, h1.autoDetectRuns]

theorem callErrorCb_kept (msg : String) (s : Sensors) : Kept s (callErrorCb msg s) := by
  unfold callErrorCb
  split
  · constructor <;> rfl
  · exact Kept.refl s

theorem onPmSensorError_kept (msg : String) (s : Sensors) :
    Kept s (onPmSensorError msg s) := callErrorCb_kept msg s

theorem stored_kept (s : Sensors) (a b : Nat) : Kept s (stored s a b) := by
  constructor <;> rfl

theorem hwSerialRead_kept (s : Sensors) : Kept s (hwSerialRead s).2 := by
  unfold hwSerialRead
  simp only []
  split
  · exact Kept.trans (by constructor <;> rfl) (onPmSensorError_kept _ _)
  · constructor <;> rfl

theorem hwSerialRead_pm (s : Sensors) :
    (hwSerialRead s).2.pm25 = s.pm25 ∧ (hwSerialRead s).2.pm10 = s.pm10 ∧
    (hwSerialRead s).2.sps30 = s.sps30 := by
  unfold hwSerialRead onPmSensorError callErrorCb
  simp only []
  split <;> (try split) <;> simp

theorem pmGenericRead_header (s : Sensors)
    (h0 : byteAt (hwSerialRead s).1 0 = 0x42) (h1 : byteAt (hwSerialRead s).1 1 = 0x4D) :
    pmGenericRead s =
      if 1000 < byteAt (hwSerialRead s).1 6 * 256 + byteAt (hwSerialRead s).1 7 ∧
          1000 < byteAt (hwSerialRead s).1 8 * 256 + byteAt (hwSerialRead s).1 9 then
        (false, onPmSensorError msgGenericRange (stored (hwSerialRead s).2
          (byteAt (hwSerialRead s).1 6 * 256 + byteAt (hwSerialRead s).1 7)
          (byteAt (hwSerialRead s).1 8 * 256 + byteAt (hwSerialRead s).1 9)))
      else
        (true, stored (hwSerialRead s).2
          (byteAt (hwSerialRead s).1 6 * 256 + byteAt (hwSerialRead s).1 7)
          (byteAt (hwSerialRead s).1 8 * 256 + byteAt (hwSerialRead s).1 9)) := by
  have e0 : charToInt s.charSigned (byteAt (hwSerialRead s).1 0) = 66 := by
    rw [h0]; exact charToInt_small _ _ (by decide)
  have e1 : charToInt s.charSigned (byteAt (hwSerialRead s).1 1) = 77 := by
    rw [h1]; exact charToInt_small _ _ (by decide)
  have e25 := toU16_char s.charSigned _ _ (hwSerialRead_byteAt_lt s 6) (hwSerialRead_byteAt_lt s 7)
  have e10 := toU16_char s.charSigned _ _ (hwSerialRead_byteAt_lt s 8) (hwSerialRead_byteAt_lt s 9)
  unfold pmGenericRead
  simp only [e0, e1, if_true, charAt, e25, e10, stored, gt_iff_lt, Bool.and_eq_true,
    decide_eq_true_eq]


theorem collected_zero (serial : List (List Nat)) : collected serial 0 = [] := by
  simp [collected]

theorem collected_nil (k : Nat) : collected [] k = [] := by
  simp [collected]

theorem drain_collected (txtMsg : List Nat) (serial : List (List Nat)) (k : Nat) :
    (drain txtMsg serial).1 ++ collected (drain txtMsg serial).2 k
      = txtMsg ++ collected serial (k + 1) := by
  cases serial with
  | nil => simp [drain, collected]
  | cons burst rest => simp [drain, collected]

theorem drain_drop (txtMsg : List Nat) (serial : List (List Nat)) (k : Nat) :
    (drain txtMsg serial).2.drop k = serial.drop (k + 1) := by
  cases serial with
  | nil => simp [drain]
  | cons burst rest => simp [drain]

/-- Exit state of the read loop when the passes still permitted do not bring the
frame to 32 bytes: all of them are made and the counter ends above the budget. -/
theorem hwSerialReadLoop_short (retry fuel : Nat) :
    ∀ (t : Nat) (txtMsg : List Nat) (serial : List (List Nat)),
      t + fuel = retry → (txtMsg ++ collected serial fuel).length < 32 →
      hwSerialReadLoop retry fuel t txtMsg serial
        = (txtMsg ++ collected serial fuel, retry + 1, serial.drop fuel) := by
  induction fuel with
  | zero =>
    intro t txtMsg serial ht hlen
    have hl : txtMsg.length < 32 := by simpa [collected_zero] using hlen
    have : t = retry := by omega
    subst this
    simp [hwSerialReadLoop, hwLoopCond, hl, collected_zero]
  | succ n ih =>
    intro t txtMsg serial ht hlen
    have hl : txtMsg.length < 32 := by
      have := hlen
      rw [List.length_append] at this
      omega
    have htr : t < retry := by omega
    have hrec := ih (t + 1) (drain txtMsg serial).1 (drain txtMsg serial).2 (by omega)
      (by rw [drain_collected]; exact hlen)
    simp only [hwSerialReadLoop, hwLoopCond, hl, htr, if_true, decide_True]
    rw [hrec, drain_collected, drain_drop]

/-- Exit state of the read loop when the passes still permitted do bring the
frame to 32 bytes: the frame has at least 32 bytes and the counter stays within
the budget. -/
theorem hwSerialReadLoop_full (retry fuel : Nat) :
    ∀ (t : Nat) (txtMsg : List Nat) (serial : List (List Nat)),
      t + fuel = retry → 32 ≤ (txtMsg ++ collected serial fuel).length →
      32 ≤ (hwSerialReadLoop retry fuel t txtMsg serial).1.length ∧
      (hwSerialReadLoop retry fuel t txtMsg serial).2.1 ≤ retry := by
  induction fuel with
  | zero =>
    intro t txtMsg serial ht hlen
    have hl : ¬ txtMsg.length < 32 := by
      have := hlen
      simp [collected_zero] at this
      omega
    simp only [hwSerialReadLoop, hwLoopCond, hl, if_false]
    exact ⟨by omega, by omega⟩
  | succ n ih =>
    intro t txtMsg serial ht hlen
    by_cases hl : txtMsg.length < 32
    · have htr : t < retry := by omega
      have hrec := ih (t + 1) (drain txtMsg serial).1 (drain txtMsg serial).2 (by omega)
        (by rw [drain_collected]; exact hlen)
      simp only [hwSerialReadLoop, hwLoopCond, hl, htr, if_true, decide_True]
      exact hrec
    · simp only [hwSerialReadLoop, hwLoopCond, hl, if_false, Bool.false_eq_true]
      exact ⟨by omega, by omega⟩

/-- The bound on the number of passes given to the read loop is never the reason
it stops: any larger bound gives the same result. -/
theorem hwSerialReadLoop_fuel (retry fuel : Nat) :
    ∀ (extra t : Nat) (txtMsg : List Nat) (serial : List (List Nat)),
      t + fuel = retry →
      hwSerialReadLoop retry (fuel + extra) t txtMsg serial
        = hwSerialReadLoop retry fuel t txtMsg serial := by
  induction fuel with
  | zero =>
    intro extra t txtMsg serial ht
    have htr : ¬ t < retry := by omega
    cases extra with
    | zero => rfl
    | succ e =>
      simp only [Nat.zero_add, hwSerialReadLoop, hwLoopCond]
      split <;> simp [htr]
  | succ n ih =>
    intro extra t txtMsg serial ht
    have e : n + 1 + extra = (n + extra) + 1 := by omega
    rw [e]
    simp only [hwSerialReadLoop]
    split
    · rename_i hc
      have : (hwLoopCond retry txtMsg t).2 = t + 1 := by
        unfold hwLoopCond at hc ⊢
        split
        · rfl
        · rename_i h; simp [h] at hc
      rw [this]
      exact ih extra (t + 1) _ _ (by omega)
    · rfl

theorem hwSerialRead_short (s : Sensors)
    (h : (collected s.serial s.SENSOR_RETRY).length < 32) :
    hwSerialRead s = (collected s.serial s.SENSOR_RETRY,
      onPmSensorError msgReadFail { s with serial := s.serial.drop s.SENSOR_RETRY }) := by
  have hl := hwSerialReadLoop_short s.SENSOR_RETRY s.SENSOR_RETRY 0 [] s.serial (by omega)
    (by simpa using h)
  unfold hwSerialRead
  simp only [hl, List.nil_append]
  simp

theorem hwSerialRead_full (s : Sensors)
    (h : 32 ≤ (collected s.serial s.SENSOR_RETRY).length) :
    32 ≤ (hwSerialRead s).1.length ∧
    (hwSerialRead s).2 = { s with serial := (hwSerialRead s).2.serial } := by
  have hl := hwSerialReadLoop_full s.SENSOR_RETRY s.SENSOR_RETRY 0 [] s.serial (by omega)
    (by simpa using h)
  unfold hwSerialRead
  have hn : ¬ (hwSerialReadLoop s.SENSOR_RETRY s.SENSOR_RETRY 0 [] s.serial).2.1
      > s.SENSOR_RETRY := by omega
  simp only [hn, if_false]
  exact ⟨hl.1, trivial⟩

theorem pmPanasonicRead_header (s : Sensors) (h0 : byteAt (hwSerialRead s).1 0 = 0x02) :
    pmPanasonicRead s =
      if 2000 < byteAt (hwSerialRead s).1 6 * 256 + byteAt (hwSerialRead s).1 5 ∧
          2000 < byteAt (hwSerialRead s).1 10 * 256 + byteAt (hwSerialRead s).1 9 then
        (false, onPmSensorError msgPanasonicRange (stored (hwSerialRead s).2
          (byteAt (hwSerialRead s).1 6 * 256 + byteAt (hwSerialRead s).1 5)
          (byteAt (hwSerialRead s).1 10 * 256 + byteAt (hwSerialRead s).1 9)))
      else
        (true, stored (hwSerialRead s).2
          (byteAt (hwSerialRead s).1 6 * 256 + byteAt (hwSerialRead s).1 5)
          (byteAt (hwSerialRead s).1 10 * 256 + byteAt (hwSerialRead s).1 9)) := by
  have e0 : charToInt s.charSigned (byteAt (hwSerialRead s).1 0) = 2 := by
    rw [h0]; exact charToInt_small _ _ (by decide)
  have e25 := toU16_char s.charSigned _ _ (hwSerialRead_byteAt_lt s 6) (hwSerialRead_byteAt_lt s 5)
  have e10 := toU16_char s.charSigned _ _ (hwSerialRead_byteAt_lt s 10) (hwSerialRead_byteAt_lt s 9)
  unfold pmPanasonicRead
  simp only [e0, if_true, charAt, e25, e10, stored, gt_iff_lt, Bool.and_eq_true,
    decide_eq_true_eq]

theorem onPmSensorError_pm (msg : String) (s : Sensors) :
    (onPmSensorError msg s).pm1 = s.pm1 ∧ (onPmSensorError msg s).pm25 = s.pm25 ∧
    (onPmSensorError msg s).pm10 = s.pm10 := by
  unfold onPmSensorError callErrorCb
  split <;> simp

theorem onPmSensorError_calls (msg : String) (s : Sensors) (hcb : s._onErrorCb = true) :
    (onPmSensorError msg s).errorCbCalls = s.errorCbCalls ++ [msg] := by
  simp [onPmSensorError, callErrorCb, hcb]

/-! ## The claims -/

/-- C1: for every frame of at least 10 bytes that starts with 0x42, 0x4D,
`pmGenericRead` stores `pm25 = byte[6]*256 + byte[7]` and
`pm10 = byte[8]*256 + byte[9]` as 16-bit unsigned values, whatever the
signedness of `char` and also when byte[6] or byte[8] is 128 or more. -/
theorem pmGenericRead_big_endian (s : Sensors)
    (_hlen : 10 ≤ (hwSerialRead s).1.length)
    (h0 : byteAt (hwSerialRead s).1 0 = 0x42) (h1 : byteAt (hwSerialRead s).1 1 = 0x4D) :
    (pmGenericRead s).2.pm25
      = byteAt (hwSerialRead s).1 6 * 256 + byteAt (hwSerialRead s).1 7 ∧
    (pmGenericRead s).2.pm10
      = byteAt (hwSerialRead s).1 8 * 256 + byteAt (hwSerialRead s).1 9 ∧
    (pmGenericRead s).2.pm25 < 65536 ∧ (pmGenericRead s).2.pm10 < 65536 := by
  have b6 := hwSerialRead_byteAt_lt s 6
  have b7 := hwSerialRead_byteAt_lt s 7
  have b8 := hwSerialRead_byteAt_lt s 8
  have b9 := hwSerialRead_byteAt_lt s 9
  rw [pmGenericRead_header s h0 h1]
  split
  · rw [(onPmSensorError_pm _ _).2.1, (onPmSensorError_pm _ _).2.2]
    exact ⟨rfl, rfl, by show _ * 256 + _ < 65536; omega, by show _ * 256 + _ < 65536; omega⟩
  · exact ⟨rfl, rfl, by show _ * 256 + _ < 65536; omega, by show _ * 256 + _ < 65536; omega⟩

/-- Witness of C1 on a target with signed `char`: bytes 6..9 are 0x81, 0x02,
0xFF, 0xFF. -/
theorem pmGenericRead_big_endian_witness :
    (10 ≤ (hwSerialRead (bench 1 true [padded 0x42 0x4D 0 0 0 0 0x81 0x02 0xFF 0xFF])).1.length ∧
      (pmGenericRead (bench 1 true [padded 0x42 0x4D 0 0 0 0 0x81 0x02 0xFF 0xFF])).2.pm25
        = 0x81 * 256 + 0x02 ∧
      (pmGenericRead (bench 1 true [padded 0x42 0x4D 0 0 0 0 0x81 0x02 0xFF 0xFF])).2.pm10
        = 0xFF * 256 + 0xFF) :=
  ⟨by decide,
    (pmGenericRead_big_endian (bench 1 true [padded 0x42 0x4D 0 0 0 0 0x81 0x02 0xFF 0xFF])
      (by decide) (by decide) (by decide)).1,
    (pmGenericRead_big_endian (bench 1 true [padded 0x42 0x4D 0 0 0 0 0x81 0x02 0xFF 0xFF])
      (by decide) (by decide) (by decide)).2.1⟩

/-- C2: for every frame with the Generic header 0x42, 0x4D, `pmGenericRead`
returns false exactly when both the decoded pm25 and the decoded pm10 exceed
1000, and it is then (and only then) that the out-of-range message goes to the
error callback; a frame decoding to 1500/50 is accepted, one decoding to
1500/1500 is rejected. -/
theorem pmGenericRead_conjunctive_bound (s : Sensors)
    (h0 : byteAt (hwSerialRead s).1 0 = 0x42) (h1 : byteAt (hwSerialRead s).1 1 = 0x4D) :
    ((pmGenericRead s).1 = false ↔
      (1000 < byteAt (hwSerialRead s).1 6 * 256 + byteAt (hwSerialRead s).1 7 ∧
        1000 < byteAt (hwSerialRead s).1 8 * 256 + byteAt (hwSerialRead s).1 9)) ∧
    (s._onErrorCb = true →
      1000 < byteAt (hwSerialRead s).1 6 * 256 + byteAt (hwSerialRead s).1 7 →
      1000 < byteAt (hwSerialRead s).1 8 * 256 + byteAt (hwSerialRead s).1 9 →
      (pmGenericRead s).2.errorCbCalls
        = (hwSerialRead s).2.errorCbCalls ++ [msgGenericRange]) ∧
    (¬ (1000 < byteAt (hwSerialRead s).1 6 * 256 + byteAt (hwSerialRead s).1 7 ∧
        1000 < byteAt (hwSerialRead s).1 8 * 256 + byteAt (hwSerialRead s).1 9) →
      (pmGenericRead s).2.errorCbCalls = (hwSerialRead s).2.errorCbCalls) ∧
    (byteAt (hwSerialRead s).1 6 * 256 + byteAt (hwSerialRead s).1 7 = 1500 →
      byteAt (hwSerialRead s).1 8 * 256 + byteAt (hwSerialRead s).1 9 = 50 →
      (pmGenericRead s).1 = true) ∧
    (byteAt (hwSerialRead s).1 6 * 256 + byteAt (hwSerialRead s).1 7 = 1500 →
      byteAt (hwSerialRead s).1 8 * 256 + byteAt (hwSerialRead s).1 9 = 1500 →
      (pmGenericRead s).1 = false) := by
  have hdec := pmGenericRead_header s h0 h1
  have hiff : (pmGenericRead s).1 = false ↔
      (1000 < byteAt (hwSerialRead s).1 6 * 256 + byteAt (hwSerialRead s).1 7 ∧
        1000 < byteAt (hwSerialRead s).1 8 * 256 + byteAt (hwSerialRead s).1 9) := by
    rw [hdec]
    split
    · rename_i h; simp [h]
    · rename_i h; simp [h]
  refine ⟨hiff, ?_, ?_, ?_, ?_⟩
  · intro hcb h25 h10
    rw [hdec, if_pos ⟨h25, h10⟩]
    have hcb1 : (stored (hwSerialRead s).2
        (byteAt (hwSerialRead s).1 6 * 256 + byteAt (hwSerialRead s).1 7)
        (byteAt (hwSerialRead s).1 8 * 256 + byteAt (hwSerialRead s).1 9))._onErrorCb = true := by
      show (hwSerialRead s).2._onErrorCb = true
      rw [(hwSerialRead_kept s).onErrorCb]
      exact hcb
    exact onPmSensorError_calls _ _ hcb1
  · intro hn
    rw [hdec, if_neg hn]
    rfl
  · intro h25 h10
    have hn : ¬ (pmGenericRead s).1 = false := by
      rw [hiff]; omega
    simpa using hn
  · intro h25 h10
    rw [hiff]; omega

/-- Witness of C2: a frame decoding to pm25 = 1500, pm10 = 50 is accepted without
a message, a frame decoding to pm25 = 1500, pm10 = 1500 is rejected with the
out-of-range message. -/
theorem pmGenericRead_conjunctive_bound_witness :
    (pmGenericRead (bench 1 false [padded 0x42 0x4D 0 0 0 0 0x05 0xDC 0x00 0x32])).1 = true ∧
    (pmGenericRead (bench 1 false [padded 0x42 0x4D 0 0 0 0 0x05 0xDC 0x05 0xDC])).1 = false ∧
    (pmGenericRead (bench 1 false [padded 0x42 0x4D 0 0 0 0 0x05 0xDC 0x05 0xDC])).2.errorCbCalls
      = (hwSerialRead
          (bench 1 false [padded 0x42 0x4D 0 0 0 0 0x05 0xDC 0x05 0xDC])).2.errorCbCalls
        ++ [msgGenericRange] :=
  ⟨(pmGenericRead_conjunctive_bound
      (bench 1 false [padded 0x42 0x4D 0 0 0 0 0x05 0xDC 0x00 0x32])
      (by decide) (by decide)).2.2.2.1 (by decide) (by decide),
    (pmGenericRead_conjunctive_bound
      (bench 1 false [padded 0x42 0x4D 0 0 0 0 0x05 0xDC 0x05 0xDC])
      (by decide) (by decide)).2.2.2.2 (by decide) (by decide),
    (pmGenericRead_conjunctive_bound
      (bench 1 false [padded 0x42 0x4D 0 0 0 0 0x05 0xDC 0x05 0xDC])
      (by decide) (by decide)).2.1 (by decide) (by decide) (by decide)⟩

/-- C3 (what the code does): on a complete 32-byte frame whose first byte is 0x41
instead of 0x42, with an error callback registered, `pmGenericRead` returns
false and leaves pm25/pm10 alone but hands nothing to the error callback, while
`pmPanasonicRead` reports its header mismatch on the same frame. -/
theorem pmGenericRead_first_byte_mismatch_silent :
    (bench 1 false [padded 0x41 0x4D 0 0 0 0 0x01 0x90 0x00 0x64])._onErrorCb = true ∧
    (pmGenericRead (bench 1 false [padded 0x41 0x4D 0 0 0 0 0x01 0x90 0x00 0x64])).1 = false ∧
    (pmGenericRead (bench 1 false [padded 0x41 0x4D 0 0 0 0 0x01 0x90 0x00 0x64])).2.pm25 = 0 ∧
    (pmGenericRead (bench 1 false [padded 0x41 0x4D 0 0 0 0 0x01 0x90 0x00 0x64])).2.pm10 = 0 ∧
    (pmGenericRead
      (bench 1 false [padded 0x41 0x4D 0 0 0 0 0x01 0x90 0x00 0x64])).2.errorCbCalls = [] ∧
    (pmGenericRead
      (bench 1 false [padded 0x42 0x4E 0 0 0 0 0x01 0x90 0x00 0x64])).2.errorCbCalls
        = [msgGenericHeader] ∧
    (pmPanasonicRead
      (bench 1 false [padded 0x41 0x4D 0 0 0 0 0x01 0x90 0x00 0x64])).2.errorCbCalls
        = [msgPanasonicHeader] := by
  decide

/-- C4: for every frame of at least 11 bytes that starts with 0x02,
`pmPanasonicRead` stores `pm25 = byte[6]*256 + byte[5]` and
`pm10 = byte[10]*256 + byte[9]` as 16-bit unsigned values, whatever the
signedness of `char`. -/
theorem pmPanasonicRead_offsets (s : Sensors)
    (_hlen : 11 ≤ (hwSerialRead s).1.length)
    (h0 : byteAt (hwSerialRead s).1 0 = 0x02) :
    (pmPanasonicRead s).2.pm25
      = byteAt (hwSerialRead s).1 6 * 256 + byteAt (hwSerialRead s).1 5 ∧
    (pmPanasonicRead s).2.pm10
      = byteAt (hwSerialRead s).1 10 * 256 + byteAt (hwSerialRead s).1 9 ∧
    (pmPanasonicRead s).2.pm25 < 65536 ∧ (pmPanasonicRead s).2.pm10 < 65536 := by
  have b5 := hwSerialRead_byteAt_lt s 5
  have b6 := hwSerialRead_byteAt_lt s 6
  have b9 := hwSerialRead_byteAt_lt s 9
  have b10 := hwSerialRead_byteAt_lt s 10
  rw [pmPanasonicRead_header s h0]
  split
  · rw [(onPmSensorError_pm _ _).2.1, (onPmSensorError_pm _ _).2.2]
    exact ⟨rfl, rfl, by show _ * 256 + _ < 65536; omega, by show _ * 256 + _ < 65536; omega⟩
  · exact ⟨rfl, rfl, by show _ * 256 + _ < 65536; omega, by show _ * 256 + _ < 65536; omega⟩

/-- Witness of C4 on a target with signed `char`: an 11-byte burst padded to 32
bytes with bytes 5, 6, 9, 10 equal to 0x34, 0x12, 0xCD, 0xAB. -/
theorem pmPanasonicRead_offsets_witness :
    (11 ≤ (hwSerialRead (bench 1 true
        [[0x02, 0, 0, 0, 0, 0x34, 0x12, 0, 0, 0xCD, 0xAB] ++ List.replicate 21 0])).1.length ∧
      (pmPanasonicRead (bench 1 true
        [[0x02, 0, 0, 0, 0, 0x34, 0x12, 0, 0, 0xCD, 0xAB] ++ List.replicate 21 0])).2.pm25
        = 0x12 * 256 + 0x34 ∧
      (pmPanasonicRead (bench 1 true
        [[0x02, 0, 0, 0, 0, 0x34, 0x12, 0, 0, 0xCD, 0xAB] ++ List.replicate 21 0])).2.pm10
        = 0xAB * 256 + 0xCD) :=
  ⟨by decide,
    (pmPanasonicRead_offsets (bench 1 true
        [[0x02, 0, 0, 0, 0, 0x34, 0x12, 0, 0, 0xCD, 0xAB] ++ List.replicate 21 0])
      (by decide) (by decide)).1,
    (pmPanasonicRead_offsets (bench 1 true
        [[0x02, 0, 0, 0, 0, 0x34, 0x12, 0, 0, 0xCD, 0xAB] ++ List.replicate 21 0])
      (by decide) (by decide)).2.1⟩

theorem append_singleton_ne (l : List String) (a : String) : l ++ [a] ≠ l := by
  intro h
  have := congrArg List.length h
  simp at this

/-- C5: with an error callback registered, for every channel behaviour and every
retry budget `SENSOR_RETRY >= 0`, `hwSerialRead` hands the read-fail message to
the error callback, once, exactly when the permitted passes together deliver
fewer than 32 bytes (the budget is exhausted with fewer than 32 bytes collected,
all permitted passes having been made); when the 32nd byte arrives within the
budget, the last permitted pass included, nothing is signalled. -/
theorem hwSerialRead_read_fail_iff (s : Sensors) (hcb : s._onErrorCb = true) :
    ((hwSerialRead s).2.errorCbCalls = s.errorCbCalls ++ [msgReadFail] ↔
      (collected s.serial s.SENSOR_RETRY).length < 32) ∧
    ((hwSerialRead s).2.errorCbCalls = s.errorCbCalls ↔
      32 ≤ (collected s.serial s.SENSOR_RETRY).length) ∧
    ((hwSerialRead s).1.length < 32 ↔ (collected s.serial s.SENSOR_RETRY).length < 32) ∧
    ((collected s.serial s.SENSOR_RETRY).length < 32 →
      (hwSerialRead s).1 = collected s.serial s.SENSOR_RETRY ∧
      (hwSerialRead s).2.serial = s.serial.drop s.SENSOR_RETRY) := by
  by_cases h : (collected s.serial s.SENSOR_RETRY).length < 32
  · have hs := hwSerialRead_short s h
    have hcalls : (hwSerialRead s).2.errorCbCalls = s.errorCbCalls ++ [msgReadFail] := by
      rw [hs]
      exact onPmSensorError_calls _ _ hcb
    have hser : (hwSerialRead s).2.serial = s.serial.drop s.SENSOR_RETRY := by
      rw [hs]
      simp [onPmSensorError, callErrorCb, hcb]
    have hfr : (hwSerialRead s).1 = collected s.serial s.SENSOR_RETRY := by rw [hs]
    refine ⟨⟨fun _ => h, fun _ => hcalls⟩, ⟨fun e => ?_, fun e => ?_⟩, ?_, fun _ => ⟨hfr, hser⟩⟩
    · rw [hcalls] at e
      exact absurd e (append_singleton_ne _ _)
    · omega
    · rw [hfr]
  · have hf := hwSerialRead_full s (by omega)
    have hcalls : (hwSerialRead s).2.errorCbCalls = s.errorCbCalls := by
      rw [hf.2]
    refine ⟨⟨fun e => ?_, fun e => absurd e h⟩, ⟨fun _ => by omega, fun _ => hcalls⟩, ?_,
      fun e => absurd e h⟩
    · rw [hcalls] at e
      exact absurd e.symm (append_singleton_ne _ _)
    · constructor
      · intro e; have := hf.1; omega
      · intro e; exact absurd e h

/-- Witness of C5 with a budget of 2 passes: two bursts of 16 bytes reach 32
bytes on the last permitted pass and nothing is signalled; bursts of 16 and 15
bytes exhaust the budget and the message is handed over once. -/
theorem hwSerialRead_read_fail_iff_witness :
    (bench 2 false [List.replicate 16 7, List.replicate 16 7])._onErrorCb = true ∧
    (hwSerialRead (bench 2 false [List.replicate 16 7, List.replicate 16 7])).2.errorCbCalls
      = (bench 2 false [List.replicate 16 7, List.replicate 16 7]).errorCbCalls ∧
    (hwSerialRead (bench 2 false [List.replicate 16 7, List.replicate 15 7])).2.errorCbCalls
      = (bench 2 false [List.replicate 16 7, List.replicate 15 7]).errorCbCalls
        ++ [msgReadFail] :=
  ⟨by decide,
    (hwSerialRead_read_fail_iff (bench 2 false [List.replicate 16 7, List.replicate 16 7])
      (by decide)).2.1.2 (by decide),
    (hwSerialRead_read_fail_iff (bench 2 false [List.replicate 16 7, List.replicate 15 7])
      (by decide)).1.2 (by decide)⟩

/-! ## Members left alone by the readers -/

theorem pmGenericRead_kept (s : Sensors) : Kept s (pmGenericRead s).2 := by
  unfold pmGenericRead
  simp only []
  split
  · split
    · split
      · exact Kept.trans (Kept.trans (hwSerialRead_kept s) (by constructor <;> rfl))
          (onPmSensorError_kept _ _)
      · exact Kept.trans (hwSerialRead_kept s) (by constructor <;> rfl)
    · exact Kept.trans (hwSerialRead_kept s) (onPmSensorError_kept _ _)
  · exact hwSerialRead_kept s

theorem pmPanasonicRead_kept (s : Sensors) : Kept s (pmPanasonicRead s).2 := by
  unfold pmPanasonicRead
  simp only []
  split
  · split
    · exact Kept.trans (Kept.trans (hwSerialRead_kept s) (by constructor <;> rfl))
        (onPmSensorError_kept _ _)
    · exact Kept.trans (hwSerialRead_kept s) (by constructor <;> rfl)
  · exact Kept.trans (hwSerialRead_kept s) (onPmSensorError_kept _ _)

theorem spsGetValues_kept (s : Sensors) : Kept s (spsGetValues s).2 := by
  constructor <;> rfl

theorem pmSensirionReadLoop_kept (fuel : Nat) :
    ∀ (error_cnt : Nat) (s : Sensors), Kept s (pmSensirionReadLoop fuel error_cnt s).2 := by
  induction fuel with
  | zero => intro error_cnt s; exact Kept.refl s
  | succ n ih =>
    intro error_cnt s
    simp only [pmSensirionReadLoop, pmSensirionErrtoMess]
    split
    · split
      · exact spsGetValues_kept s
      · exact Kept.trans (spsGetValues_kept s) (ih _ _)
    · split
      · exact spsGetValues_kept s
      · exact spsGetValues_kept s

theorem pmSensirionRead_kept (s : Sensors) : Kept s (pmSensirionRead s).2 := by
  have h := pmSensirionReadLoop_kept 5 0 s
  unfold pmSensirionRead
  split
  · rename_i s1 heq
    rw [heq] at h
    exact h
  · rename_i v s1 heq
    rw [heq] at h
    simp only []
    split
    · exact Kept.trans (Kept.trans h (by constructor <;> rfl)) (onPmSensorError_kept _ _)
    · exact Kept.trans h (by constructor <;> rfl)

theorem pmSensirionErrorloop_eq (r : Nat) (s : Sensors) : pmSensirionErrorloop r s = s := by
  unfold pmSensirionErrorloop pmSensirionErrtoMess
  split <;> rfl

theorem spsBegin_kept (s : Sensors) : Kept s (spsBegin s).2 := by
  constructor <;> rfl

theorem spsProbe_kept (s : Sensors) : Kept s (spsProbe s).2 := by
  constructor <;> rfl

theorem spsReset_kept (s : Sensors) : Kept s (spsReset s).2 := by
  constructor <;> rfl

theorem spsStart_kept (s : Sensors) : Kept s (spsStart s).2 := by
  constructor <;> rfl

/-- What `pmSensirionInit` comes to: the four driver calls in a row, the result
being the answer of `start`. -/
theorem pmSensirionInit_eq (s : Sensors) :
    pmSensirionInit s
      = ((spsStart (spsReset (spsProbe (spsBegin s).2).2).2).1,
          (spsStart (spsReset (spsProbe (spsBegin s).2).2).2).2) := by
  unfold pmSensirionInit
  simp only [pmSensirionErrorloop_eq, getSensirionDeviceInfo, ite_self]
  split
  · rename_i h; rw [h]
  · rename_i h
    have h2 : (spsStart (spsReset (spsProbe (spsBegin s).2).2).2).1 = false := by
      simpa using h
    rw [h2]

theorem pmSensirionInit_kept (s : Sensors) : Kept s (pmSensirionInit s).2 := by
  rw [pmSensirionInit_eq]
  exact Kept.trans (Kept.trans (Kept.trans (spsBegin_kept _) (spsProbe_kept _))
    (spsReset_kept _)) (spsStart_kept _)

theorem pmSensorRead_kept (s : Sensors) : Kept s (pmSensorRead s).2 := by
  unfold pmSensorRead
  split
  · exact pmGenericRead_kept s
  · split
    · exact pmPanasonicRead_kept s
    · split
      · exact pmSensirionRead_kept s
      · exact Kept.refl s

/-- The frame read does not depend on the count of detection runs. -/
theorem hwSerialRead_enterAutoDetect (s : Sensors) :
    (hwSerialRead (enterAutoDetect s)).1 = (hwSerialRead s).1 ∧
    (hwSerialRead (enterAutoDetect s)).2.serial = (hwSerialRead s).2.serial ∧
    (hwSerialRead (enterAutoDetect s)).2.errorCbCalls = (hwSerialRead s).2.errorCbCalls ∧
    (hwSerialRead (enterAutoDetect s)).2.pm1 = (hwSerialRead s).2.pm1 := by
  unfold hwSerialRead enterAutoDetect onPmSensorError callErrorCb
  simp only []
  split <;> (try split) <;> simp

/-- C6: for every detection attempt with a requested kind other than Sensirion
whose first frame carries the Generic header 0x42, 0x4D and is not out of
range, `pmSensorAutoDetect` returns true with device type Honeywell and label
"HONEYWELL"; the state is the one left by that single Generic read (nothing
more is taken from the channel, no further message is signalled), so the
Panasonic decoder is not attempted, whatever follows in the stream. -/
theorem pmSensorAutoDetect_generic_first (pms_type : Int) (s : Sensors)
    (hkind : pms_type ≠ Sensirion)
    (h0 : byteAt (hwSerialRead s).1 0 = 0x42) (h1 : byteAt (hwSerialRead s).1 1 = 0x4D)
    (hrange : ¬ (1000 < byteAt (hwSerialRead s).1 6 * 256 + byteAt (hwSerialRead s).1 7 ∧
        1000 < byteAt (hwSerialRead s).1 8 * 256 + byteAt (hwSerialRead s).1 9)) :
    pmSensorAutoDetect pms_type s
      = (true, { (pmGenericRead (enterAutoDetect s)).2 with
          device_selected := "HONEYWELL", device_type := Honeywell }) ∧
    (pmSensorAutoDetect pms_type s).1 = true ∧
    (pmSensorAutoDetect pms_type s).2.device_type = Honeywell ∧
    (pmSensorAutoDetect pms_type s).2.device_selected = "HONEYWELL" ∧
    (pmSensorAutoDetect pms_type s).2.serial = (hwSerialRead s).2.serial ∧
    (pmSensorAutoDetect pms_type s).2.errorCbCalls = (hwSerialRead s).2.errorCbCalls ∧
    (pmSensorAutoDetect pms_type s).2.pm25
      = byteAt (hwSerialRead s).1 6 * 256 + byteAt (hwSerialRead s).1 7 ∧
    (pmSensorAutoDetect pms_type s).2.pm10
      = byteAt (hwSerialRead s).1 8 * 256 + byteAt (hwSerialRead s).1 9 := by
  have hf := hwSerialRead_enterAutoDetect s
  have hdec := pmGenericRead_header (enterAutoDetect s) (by rw [hf.1]; exact h0)
    (by rw [hf.1]; exact h1)
  rw [hf.1, if_neg hrange] at hdec
  have hacc : (pmGenericRead (enterAutoDetect s)).1 = true := by rw [hdec]
  have hmain : pmSensorAutoDetect pms_type s
      = (true, { (pmGenericRead (enterAutoDetect s)).2 with
          device_selected := "HONEYWELL", device_type := Honeywell }) := by
    unfold pmSensorAutoDetect
    simp only [hkind, if_false, hacc, if_true]
  refine ⟨hmain, ?_, ?_, ?_, ?_, ?_, ?_, ?_⟩
  · rw [hmain]
  · rw [hmain]
  · rw [hmain]
  · rw [hmain, hdec]; exact hf.2.1
  · rw [hmain, hdec]; exact hf.2.2.1
  · rw [hmain, hdec]; rfl
  · rw [hmain, hdec]; rfl

/-- Witness of C6: autodetection (requested kind -1) on a stream whose first
frame is Generic with pm25 = 400, pm10 = 100 and that continues with a frame
starting with the Panasonic header byte 0x02. -/
theorem pmSensorAutoDetect_generic_first_witness :
    ((-1 : Int) ≠ Sensirion) ∧
    (pmSensorAutoDetect (-1) (bench 1 false
        [padded 0x42 0x4D 0 0 0 0 0x01 0x90 0x00 0x64, padded 0x02 0 0 0 0 1 0 0 0 1])).1
      = true ∧
    (pmSensorAutoDetect (-1) (bench 1 false
        [padded 0x42 0x4D 0 0 0 0 0x01 0x90 0x00 0x64,
          padded 0x02 0 0 0 0 1 0 0 0 1])).2.device_type
      = Honeywell ∧
    (pmSensorAutoDetect (-1) (bench 1 false
        [padded 0x42 0x4D 0 0 0 0 0x01 0x90 0x00 0x64,
          padded 0x02 0 0 0 0 1 0 0 0 1])).2.serial
      = (hwSerialRead (bench 1 false
        [padded 0x42 0x4D 0 0 0 0 0x01 0x90 0x00 0x64,
          padded 0x02 0 0 0 0 1 0 0 0 1])).2.serial :=
  ⟨by decide,
    (pmSensorAutoDetect_generic_first (-1) (bench 1 false
        [padded 0x42 0x4D 0 0 0 0 0x01 0x90 0x00 0x64, padded 0x02 0 0 0 0 1 0 0 0 1])
      (by decide) (by decide) (by decide) (by decide)).2.1,
    (pmSensorAutoDetect_generic_first (-1) (bench 1 false
        [padded 0x42 0x4D 0 0 0 0 0x01 0x90 0x00 0x64, padded 0x02 0 0 0 0 1 0 0 0 1])
      (by decide) (by decide) (by decide) (by decide)).2.2.1,
    (pmSensorAutoDetect_generic_first (-1) (bench 1 false
        [padded 0x42 0x4D 0 0 0 0 0x01 0x90 0x00 0x64, padded 0x02 0 0 0 0 1 0 0 0 1])
      (by decide) (by decide) (by decide) (by decide)).2.2.2.2.1⟩

/-! ## Detection loop -/

theorem pmSensorAutoDetect_runs (pms_type : Int) (s : Sensors) :
    (pmSensorAutoDetect pms_type s).2.autoDetectRuns = s.autoDetectRuns + 1 := by
  have e : (enterAutoDetect s).autoDetectRuns = s.autoDetectRuns + 1 := rfl
  unfold pmSensorAutoDetect
  simp only []
  split
  · split
    · show (pmSensirionInit (enterAutoDetect s)).2.autoDetectRuns = _
      rw [(pmSensirionInit_kept _).autoDetectRuns, e]
    · rw [(pmSensirionInit_kept _).autoDetectRuns, e]
  · split
    · show (pmGenericRead (enterAutoDetect s)).2.autoDetectRuns = _
      rw [(pmGenericRead_kept _).autoDetectRuns, e]
    · split
      · show (pmPanasonicRead (pmGenericRead (enterAutoDetect s)).2).2.autoDetectRuns = _
        rw [(pmPanasonicRead_kept _).autoDetectRuns, (pmGenericRead_kept _).autoDetectRuns, e]
      · rw [(pmPanasonicRead_kept _).autoDetectRuns, (pmGenericRead_kept _).autoDetectRuns, e]

/-- A failed detection attempt leaves the selection and the callbacks as they
were. -/
theorem pmSensorAutoDetect_failed (pms_type : Int) (s : Sensors)
    (h : (pmSensorAutoDetect pms_type s).1 = false) :
    (pmSensorAutoDetect pms_type s).2.device_type = s.device_type ∧
    (pmSensorAutoDetect pms_type s).2.device_selected = s.device_selected ∧
    (pmSensorAutoDetect pms_type s).2._onErrorCb = s._onErrorCb := by
  have e1 : (enterAutoDetect s).device_type = s.device_type := rfl
  have e2 : (enterAutoDetect s).device_selected = s.device_selected := rfl
  have e3 : (enterAutoDetect s)._onErrorCb = s._onErrorCb := rfl
  by_cases hk : pms_type = Sensirion
  · by_cases hi : (pmSensirionInit (enterAutoDetect s)).1 = true
    · have e : (pmSensorAutoDetect pms_type s).1 = true := by
        unfold pmSensorAutoDetect
        simp only []
        rw [if_pos hk, if_pos hi]
      rw [e] at h
      cases h
    · have e : pmSensorAutoDetect pms_type s
          = (false, (pmSensirionInit (enterAutoDetect s)).2) := by
        unfold pmSensorAutoDetect
        simp only []
        rw [if_pos hk, if_neg hi]
      have k := pmSensirionInit_kept (enterAutoDetect s)
      rw [e]
      exact ⟨by rw [k.device_type, e1], by rw [k.device_selected, e2], by rw [k.onErrorCb, e3]⟩
  · by_cases hg : (pmGenericRead (enterAutoDetect s)).1 = true
    · have e : (pmSensorAutoDetect pms_type s).1 = true := by
        unfold pmSensorAutoDetect
        simp only []
        rw [if_neg hk, if_pos hg]
      rw [e] at h
      cases h
    · by_cases hp : (pmPanasonicRead (pmGenericRead (enterAutoDetect s)).2).1 = true
      · have e : (pmSensorAutoDetect pms_type s).1 = true := by
          unfold pmSensorAutoDetect
          simp only []
          rw [if_neg hk, if_neg hg, if_pos hp]
        rw [e] at h
        cases h
      · have e : pmSensorAutoDetect pms_type s
            = (false, (pmPanasonicRead (pmGenericRead (enterAutoDetect s)).2).2) := by
          unfold pmSensorAutoDetect
          simp only []
          rw [if_neg hk, if_neg hg, if_neg hp]
        have k := Kept.trans (pmGenericRead_kept (enterAutoDetect s)) (pmPanasonicRead_kept _)
        rw [e]
        exact ⟨by rw [k.device_type, e1], by rw [k.device_selected, e2],
          by rw [k.onErrorCb, e3]⟩

theorem afterAttempts_runs (pms_type : Int) (k : Nat) (s : Sensors) :
    (afterAttempts pms_type k s).autoDetectRuns = s.autoDetectRuns + k := by
  induction k with
  | zero => rfl
  | succ n ih =>
    simp only [afterAttempts]
    rw [pmSensorAutoDetect_runs, ih]
    omega

/-- The bound on the repetitions given to the detection loop is never the reason
it stops: any larger bound gives the same result. -/
theorem pmSensorInitLoop_fuel (pms_type : Int) (fuel : Nat) :
    ∀ (extra try_sensor_init : Nat) (s : Sensors), 2 ≤ try_sensor_init + fuel →
      pmSensorInitLoop pms_type (fuel + extra) try_sensor_init s
        = pmSensorInitLoop pms_type fuel try_sensor_init s := by
  induction fuel with
  | zero =>
    intro extra t s ht
    have htr : ¬ t < 2 := by omega
    cases extra with
    | zero => rfl
    | succ e => simp [pmSensorInitLoop, htr]
  | succ n ih =>
    intro extra t s ht
    have e : n + 1 + extra = (n + extra) + 1 := by omega
    rw [e]
    simp only [pmSensorInitLoop]
    split
    · exact ih extra (t + 1) _ (by omega)
    · rfl

/-- The detection loop makes one, two or three attempts: it is the state after
the first attempt that succeeds, or after the third. -/
theorem pmSensorInitLoop_cases (pms_type : Int) (s : Sensors) :
    ((pmSensorAutoDetect pms_type s).1 = true ∧
      pmSensorInitLoop pms_type 2 0 s = afterAttempts pms_type 1 s) ∨
    ((pmSensorAutoDetect pms_type s).1 = false ∧
      (pmSensorAutoDetect pms_type (afterAttempts pms_type 1 s)).1 = true ∧
      pmSensorInitLoop pms_type 2 0 s = afterAttempts pms_type 2 s) ∨
    ((pmSensorAutoDetect pms_type s).1 = false ∧
      (pmSensorAutoDetect pms_type (afterAttempts pms_type 1 s)).1 = false ∧
      pmSensorInitLoop pms_type 2 0 s = afterAttempts pms_type 3 s) := by
  cases h1 : (pmSensorAutoDetect pms_type s).1 with
  | true =>
    left
    exact ⟨rfl, by simp [pmSensorInitLoop, afterAttempts, h1]⟩
  | false =>
    right
    cases h2 : (pmSensorAutoDetect pms_type (afterAttempts pms_type 1 s)).1 with
    | true =>
      left
      simp only [afterAttempts] at h2
      exact ⟨rfl, rfl, by simp [pmSensorInitLoop, afterAttempts, h1, h2]⟩
    | false =>
      right
      simp only [afterAttempts] at h2
      exact ⟨rfl, rfl, by simp [pmSensorInitLoop, afterAttempts, h1, h2]⟩

/-- C7 (as the code has it): `pmSensorInit` executes `pmSensorAutoDetect` at
least once and at most 3 times; when every attempt fails it executes it exactly
3 times (the first attempt and 2 retries) and then, if no device type was
selected beforehand, returns false and hands the detection-failed message to a
registered error callback. -/
theorem pmSensorInit_three_attempts (pms_type : Int) (s : Sensors) :
    (s.autoDetectRuns + 1 ≤ (pmSensorInit pms_type s).2.autoDetectRuns ∧
      (pmSensorInit pms_type s).2.autoDetectRuns ≤ s.autoDetectRuns + 3) ∧
    ((∀ k, k < 3 → (pmSensorAutoDetect pms_type (afterAttempts pms_type k s)).1 = false) →
      (pmSensorInit pms_type s).2.autoDetectRuns = s.autoDetectRuns + 3 ∧
      (s.device_type < 0 →
        (pmSensorInit pms_type s).1 = false ∧
        (s._onErrorCb = true →
          (pmSensorInit pms_type s).2.errorCbCalls
            = (afterAttempts pms_type 3 s).errorCbCalls ++ [msgDetectionFailed]))) := by
  have hruns : (pmSensorInit pms_type s).2.autoDetectRuns
      = (pmSensorInitLoop pms_type 2 0 s).autoDetectRuns := by
    unfold pmSensorInit
    simp only []
    split
    · rfl
    · exact (callErrorCb_kept _ _).autoDetectRuns
  constructor
  · rw [hruns]
    rcases pmSensorInitLoop_cases pms_type s with h | h | h
    · rw [h.2, afterAttempts_runs]; omega
    · rw [h.2.2, afterAttempts_runs]; omega
    · rw [h.2.2, afterAttempts_runs]; omega
  · intro hall
    have f0 : (pmSensorAutoDetect pms_type s).1 = false := hall 0 (by omega)
    have f1 := hall 1 (by omega)
    have f2 := hall 2 (by omega)
    have hloop : pmSensorInitLoop pms_type 2 0 s = afterAttempts pms_type 3 s := by
      rcases pmSensorInitLoop_cases pms_type s with h | h | h
      · rw [f0] at h; simp at h
      · rw [f1] at h; simp at h
      · exact h.2.2
    have d1 := pmSensorAutoDetect_failed pms_type s f0
    have d2 := pmSensorAutoDetect_failed pms_type _ f1
    have d3 := pmSensorAutoDetect_failed pms_type _ f2
    have hdt : (afterAttempts pms_type 3 s).device_type = s.device_type := by
      show (pmSensorAutoDetect pms_type (afterAttempts pms_type 2 s)).2.device_type = _
      rw [d3.1]
      show (pmSensorAutoDetect pms_type (afterAttempts pms_type 1 s)).2.device_type = _
      rw [d2.1]
      exact d1.1
    have hcb : (afterAttempts pms_type 3 s)._onErrorCb = s._onErrorCb := by
      show (pmSensorAutoDetect pms_type (afterAttempts pms_type 2 s)).2._onErrorCb = _
      rw [d3.2.2]
      show (pmSensorAutoDetect pms_type (afterAttempts pms_type 1 s)).2._onErrorCb = _
      rw [d2.2.2]
      exact d1.2.2
    refine ⟨by rw [hruns, hloop, afterAttempts_runs], ?_⟩
    intro hneg
    have hn : ¬ (afterAttempts pms_type 3 s).device_type ≥ 0 := by rw [hdt]; omega
    unfold pmSensorInit
    simp only [hloop, hn, if_false]
    refine ⟨trivial, ?_⟩
    intro hreg
    simp [callErrorCb, hcb, hreg]

/-- Witness of C7 as amended: autodetection on a silent channel. -/
theorem pmSensorInit_three_attempts_witness :
    (∀ k, k < 3 →
      (pmSensorAutoDetect (-1) (afterAttempts (-1) k (bench 1 false []))).1 = false) ∧
    (pmSensorInit (-1) (bench 1 false [])).2.autoDetectRuns
      = (bench 1 false []).autoDetectRuns + 3 :=
  ⟨by decide,
    ((pmSensorInit_three_attempts (-1) (bench 1 false [])).2 (by decide)).1⟩

/-- Counterexample to C7 as stated: on a silent channel every detection attempt
fails and `pmSensorInit` has executed `pmSensorAutoDetect` 3 times, not at most
2, when it reports the failure. -/
theorem pmSensorInit_runs_more_than_twice :
    (∀ k, k < 3 →
      (pmSensorAutoDetect (-1) (afterAttempts (-1) k (bench 1 false []))).1 = false) ∧
    (pmSensorInit (-1) (bench 1 false [])).1 = false ∧
    (pmSensorInit (-1) (bench 1 false [])).2.autoDetectRuns = 3 ∧
    ¬ ((pmSensorInit (-1) (bench 1 false [])).2.autoDetectRuns
        ≤ (bench 1 false []).autoDetectRuns + 2) := by
  decide

/-! ## Sensirion read loop -/

theorem spsGetValues_calls (s : Sensors) :
    (spsGetValues s).2.sps30.getValuesCalls = s.sps30.getValuesCalls + 1 ∧
    (spsGetValues s).2.sps30.getValuesRet = s.sps30.getValuesRet ∧
    (spsGetValues s).1 = s.sps30.getValuesRet s.sps30.getValuesCalls :=
  ⟨rfl, rfl, rfl⟩

/-- The bound on the passes given to the Sensirion read loop is never the reason
it stops: any larger bound gives the same result. -/
theorem pmSensirionReadLoop_fuel (fuel : Nat) :
    ∀ (extra error_cnt : Nat) (s : Sensors), error_cnt ≤ 4 → 5 ≤ error_cnt + fuel →
      pmSensirionReadLoop (fuel + extra) error_cnt s
        = pmSensirionReadLoop fuel error_cnt s := by
  induction fuel with
  | zero => intro extra error_cnt s h1 h2; omega
  | succ n ih =>
    intro extra error_cnt s h1 h2
    have e : n + 1 + extra = (n + extra) + 1 := by omega
    rw [e]
    simp only [pmSensirionReadLoop, pmSensirionErrtoMess]
    split
    · split
      · rfl
      · have hm : (error_cnt + 1) % 256 = error_cnt + 1 := by omega
        rw [hm]
        exact ih extra (error_cnt + 1) _ (by omega) (by omega)
    · rfl

theorem pmSensirionReadLoop_calls (fuel : Nat) :
    ∀ (error_cnt : Nat) (s : Sensors), error_cnt ≤ 4 →
      s.sps30.getValuesCalls ≤ (pmSensirionReadLoop fuel error_cnt s).2.sps30.getValuesCalls ∧
      (pmSensirionReadLoop fuel error_cnt s).2.sps30.getValuesCalls
        ≤ s.sps30.getValuesCalls + (5 - error_cnt) ∧
      (0 < fuel →
        s.sps30.getValuesCalls
          < (pmSensirionReadLoop fuel error_cnt s).2.sps30.getValuesCalls) := by
  induction fuel with
  | zero => intro error_cnt s _; exact ⟨Nat.le_refl _, by simp [pmSensirionReadLoop], by simp⟩
  | succ n ih =>
    intro error_cnt s h
    have hc := (spsGetValues_calls s).1
    simp only [pmSensirionReadLoop, pmSensirionErrtoMess]
    split
    · split
      · rw [hc]; exact ⟨by omega, by omega, fun _ => by omega⟩
      · have hm : (error_cnt + 1) % 256 = error_cnt + 1 := by omega
        rw [hm]
        have r := ih (error_cnt + 1) (spsGetValues s).2 (by omega)
        rw [hc] at r
        exact ⟨by omega, by omega, fun _ => by omega⟩
    · split <;> (rw [hc]; exact ⟨by omega, by omega, fun _ => by omega⟩)

theorem pmSensirionReadLoop_datalength (fuel : Nat) :
    ∀ (error_cnt : Nat) (s : Sensors), error_cnt ≤ 4 → 5 ≤ error_cnt + fuel →
      (∀ n, n < 5 - error_cnt →
        (s.sps30.getValuesRet (s.sps30.getValuesCalls + n)).1 = ERR_DATALENGTH) →
      (pmSensirionReadLoop fuel error_cnt s).1 = none ∧
      (pmSensirionReadLoop fuel error_cnt s).2.sps30.getValuesCalls
        = s.sps30.getValuesCalls + (5 - error_cnt) := by
  induction fuel with
  | zero => intro error_cnt s h1 h2; omega
  | succ n ih =>
    intro error_cnt s h1 h2 hall
    have hc := spsGetValues_calls s
    have hd : (spsGetValues s).1.1 = ERR_DATALENGTH := by
      rw [hc.2.2]
      exact hall 0 (by omega)
    simp only [pmSensirionReadLoop, pmSensirionErrtoMess]
    rw [if_pos hd]
    split
    · rw [hc.1]; exact ⟨rfl, by omega⟩
    · have hm : (error_cnt + 1) % 256 = error_cnt + 1 := by omega
      rw [hm]
      have r := ih (error_cnt + 1) (spsGetValues s).2 (by omega) (by omega) (by
        intro k hk
        rw [hc.1, hc.2.1]
        have := hall (k + 1) (by omega)
        rw [show s.sps30.getValuesCalls + 1 + k = s.sps30.getValuesCalls + (k + 1) by omega]
        exact this)
      rw [hc.1] at r
      exact ⟨r.1, by omega⟩

theorem pmSensirionRead_sps30 (s : Sensors) :
    (pmSensirionRead s).2.sps30 = (pmSensirionReadLoop 5 0 s).2.sps30 := by
  unfold pmSensirionRead
  split
  · rename_i s1 heq
    rw [heq]
  · rename_i v s1 heq
    rw [heq]
    simp only [onPmSensorError, callErrorCb]
    split <;> (try split) <;> rfl

/-- C8 (as the code has it): the retry loop of `pmSensirionRead` always
terminates, invoking `GetValues` at least once and at most 5 times; when
`GetValues` keeps returning the data-length error it is invoked exactly 5 times
(4 retries) and `pmSensirionRead` returns false. -/
theorem pmSensirionRead_five_calls (s : Sensors) :
    (∀ extra, pmSensirionReadLoop (5 + extra) 0 s = pmSensirionReadLoop 5 0 s) ∧
    (s.sps30.getValuesCalls + 1 ≤ (pmSensirionRead s).2.sps30.getValuesCalls ∧
      (pmSensirionRead s).2.sps30.getValuesCalls ≤ s.sps30.getValuesCalls + 5) ∧
    ((∀ n, n < 5 →
        (s.sps30.getValuesRet (s.sps30.getValuesCalls + n)).1 = ERR_DATALENGTH) →
      (pmSensirionRead s).1 = false ∧
      (pmSensirionRead s).2.sps30.getValuesCalls = s.sps30.getValuesCalls + 5) := by
  refine ⟨fun extra => pmSensirionReadLoop_fuel 5 extra 0 s (by omega) (by omega), ?_, ?_⟩
  · rw [pmSensirionRead_sps30]
    have h := pmSensirionReadLoop_calls 5 0 s (by omega)
    have h3 := h.2.2 (by omega)
    exact ⟨by omega, by omega⟩
  · intro hall
    have h := pmSensirionReadLoop_datalength 5 0 s (by omega) (by omega) (by simpa using hall)
    refine ⟨?_, by rw [pmSensirionRead_sps30, h.2]⟩
    unfold pmSensirionRead
    split
    · rfl
    · rename_i v s1 heq
      rw [heq] at h
      simp at h

/-- Witness of C8 as amended: a driver that answers every `GetValues` with the
data-length error. -/
theorem pmSensirionRead_five_calls_witness :
    (∀ n, n < 5 →
      ((bench 1 false []).sps30.getValuesRet ((bench 1 false []).sps30.getValuesCalls + n)).1
        = ERR_DATALENGTH) ∧
    (pmSensirionRead (bench 1 false [])).1 = false ∧
    (pmSensirionRead (bench 1 false [])).2.sps30.getValuesCalls
      = (bench 1 false []).sps30.getValuesCalls + 5 :=
  ⟨by decide, (pmSensirionRead_five_calls (bench 1 false [])).2.2 (by decide)⟩

/-- Counterexample to C8 as stated: with a driver that answers every `GetValues`
with the data-length error, `pmSensirionRead` invokes `GetValues` 5 times (4
retries), not at most 4 times, before it returns false. -/
theorem pmSensirionRead_fifth_call :
    (∀ n, n < 8 → ((bench 1 false []).sps30.getValuesRet n).1 = ERR_DATALENGTH) ∧
    (bench 1 false []).sps30.getValuesCalls = 0 ∧
    (pmSensirionRead (bench 1 false [])).1 = false ∧
    (pmSensirionRead (bench 1 false [])).2.sps30.getValuesCalls = 5 ∧
    ¬ ((pmSensirionRead (bench 1 false [])).2.sps30.getValuesCalls
        ≤ (bench 1 false []).sps30.getValuesCalls + 4) := by
  decide

/-! ## The polling loop -/

theorem loop_open (s : Sensors) (hgate : gateOpen (millis s).1 s = true) :
    loop s = loopBody (millis s).2 := by
  unfold loop
  rw [if_pos hgate]

theorem loopPrepare_members (s : Sensors) :
    (loopPrepare (millis s).2).device_type = s.device_type ∧
    (loopPrepare (millis s).2)._onDataCb = s._onDataCb ∧
    (loopPrepare (millis s).2)._onErrorCb = s._onErrorCb ∧
    (loopPrepare (millis s).2).dataCbCalls = s.dataCbCalls ∧
    (loopPrepare (millis s).2).errorCbCalls = s.errorCbCalls ∧
    (loopPrepare (millis s).2).serial = s.serial ∧
    (loopPrepare (millis s).2).SENSOR_RETRY = s.SENSOR_RETRY ∧
    (loopPrepare (millis s).2).pm1 = s.pm1 ∧
    (loopPrepare (millis s).2).pm25 = s.pm25 ∧
    (loopPrepare (millis s).2).pm10 = s.pm10 :=
  ⟨rfl, rfl, rfl, rfl, rfl, rfl, rfl, rfl, rfl, rfl⟩

theorem loopBody_success (s : Sensors) (h : (pmSensorRead (loopPrepare s)).1 = true) :
    loopBody s = { callDataCb (pmSensorRead (loopPrepare s)).2 with dataReady := true } := by
  unfold loopBody
  simp only []
  rw [if_pos h]

theorem loopBody_failure (s : Sensors) (h : (pmSensorRead (loopPrepare s)).1 = false) :
    loopBody s = { callErrorCb msgNotConfigured (pmSensorRead (loopPrepare s)).2 with
      dataReady := false } := by
  unfold loopBody
  simp only []
  rw [if_neg (by rw [h]; simp)]

theorem callDataCb_members (s : Sensors) :
    (callDataCb s).errorCbCalls = s.errorCbCalls ∧ (callDataCb s).pm25 = s.pm25 ∧
    (callDataCb s).pm10 = s.pm10 ∧ (callDataCb s).pm1 = s.pm1 ∧
    (s._onDataCb = true → (callDataCb s).dataCbCalls = s.dataCbCalls + 1) ∧
    (s._onDataCb = false → (callDataCb s).dataCbCalls = s.dataCbCalls) := by
  unfold callDataCb
  split
  · rename_i h; simp [h]
  · rename_i h; simp [h]

theorem callErrorCb_members (msg : String) (s : Sensors) :
    (callErrorCb msg s).dataCbCalls = s.dataCbCalls ∧
    (s._onErrorCb = true → (callErrorCb msg s).errorCbCalls = s.errorCbCalls ++ [msg]) ∧
    (s._onErrorCb = false → (callErrorCb msg s).errorCbCalls = s.errorCbCalls) := by
  unfold callErrorCb
  split
  · rename_i h; simp [h]
  · rename_i h; simp [h]

/-- A pass with the gate open whose PM read succeeds. -/
theorem loop_success (s : Sensors) (hgate : gateOpen (millis s).1 s = true)
    (h : (pmSensorRead (loopPrepare (millis s).2)).1 = true) :
    (loop s).dataReady = true ∧
    (loop s).errorCbCalls = (pmSensorRead (loopPrepare (millis s).2)).2.errorCbCalls ∧
    (s._onDataCb = true → (loop s).dataCbCalls = s.dataCbCalls + 1) := by
  have hm := loopPrepare_members s
  have hk := pmSensorRead_kept (loopPrepare (millis s).2)
  rw [loop_open s hgate, loopBody_success _ h]
  refine ⟨rfl, (callDataCb_members _).1, ?_⟩
  intro hcb
  have := (callDataCb_members (pmSensorRead (loopPrepare (millis s).2)).2).2.2.2.2.1
    (by rw [hk.onDataCb, hm.2.1]; exact hcb)
  rw [hk.dataCbCalls, hm.2.2.2.1] at this
  exact this

/-- A pass with the gate open whose PM read fails. -/
theorem loop_failure (s : Sensors) (hgate : gateOpen (millis s).1 s = true)
    (h : (pmSensorRead (loopPrepare (millis s).2)).1 = false) :
    (loop s).dataReady = false ∧
    (loop s).dataCbCalls = s.dataCbCalls ∧
    (s._onErrorCb = true →
      (loop s).errorCbCalls
        = (pmSensorRead (loopPrepare (millis s).2)).2.errorCbCalls ++ [msgNotConfigured]) := by
  have hm := loopPrepare_members s
  have hk := pmSensorRead_kept (loopPrepare (millis s).2)
  rw [loop_open s hgate, loopBody_failure _ h]
  refine ⟨rfl, ?_, ?_⟩
  · show (callErrorCb msgNotConfigured (pmSensorRead (loopPrepare (millis s).2)).2).dataCbCalls
      = s.dataCbCalls
    rw [(callErrorCb_members _ _).1, hk.dataCbCalls, hm.2.2.2.1]
  · intro hcb
    exact (callErrorCb_members _ _).2.1 (by rw [hk.onErrorCb, hm.2.2.1]; exact hcb)

/-- C9: for every `loop()` pass whose time gate is open, `dataReady` afterwards
is the result of the PM read through the active decoder; on success a
registered data callback is invoked once and `loop()` itself adds nothing to the
error-callback trace; on failure a registered error callback receives the
not-configured message from `loop()` and the data callback is not invoked; a
pass with no protocol selected is such a failure. -/
theorem loop_gate_open (s : Sensors) (hgate : gateOpen (millis s).1 s = true) :
    (loop s).dataReady = (pmSensorRead (loopPrepare (millis s).2)).1 ∧
    ((pmSensorRead (loopPrepare (millis s).2)).1 = true →
      (loop s).errorCbCalls = (pmSensorRead (loopPrepare (millis s).2)).2.errorCbCalls ∧
      (s._onDataCb = true → (loop s).dataCbCalls = s.dataCbCalls + 1)) ∧
    ((pmSensorRead (loopPrepare (millis s).2)).1 = false →
      (loop s).dataCbCalls = s.dataCbCalls ∧
      (s._onErrorCb = true →
        (loop s).errorCbCalls
          = (pmSensorRead (loopPrepare (millis s).2)).2.errorCbCalls ++ [msgNotConfigured])) ∧
    (s.device_type ≠ Honeywell → s.device_type ≠ Panasonic → s.device_type ≠ Sensirion →
      (pmSensorRead (loopPrepare (millis s).2)).1 = false ∧
      (loop s).dataReady = false ∧
      (s._onErrorCb = true → (loop s).errorCbCalls = s.errorCbCalls ++ [msgNotConfigured])) := by
  have hm := loopPrepare_members s
  have hsucc := loop_success s hgate
  have hfail := loop_failure s hgate
  refine ⟨?_, fun h => (hsucc h).2, fun h => (hfail h).2, ?_⟩
  · cases h : (pmSensorRead (loopPrepare (millis s).2)).1 with
    | true => exact (hsucc h).1
    | false => exact (hfail h).1
  · intro h1 h2 h3
    have hr : pmSensorRead (loopPrepare (millis s).2) = (false, loopPrepare (millis s).2) := by
      unfold pmSensorRead
      rw [hm.1, if_neg h1, if_neg h2, if_neg h3]
    have hf : (pmSensorRead (loopPrepare (millis s).2)).1 = false := by rw [hr]
    refine ⟨hf, (hfail hf).1, ?_⟩
    intro hcb
    have := (hfail hf).2.2 hcb
    rw [hr] at this
    exact this

/-- Witness of C9: a pass with the gate open on an object with no protocol
selected (failure), and one with Honeywell selected and a complete Generic frame
on the channel (success). -/
theorem loop_gate_open_witness :
    gateOpen (millis (bench 1 false [])).1 (bench 1 false []) = true ∧
    (loop (bench 1 false [])).dataReady = false ∧
    (loop (bench 1 false [])).errorCbCalls = [msgNotConfigured] ∧
    (loop (withHoneywell
      (bench 1 false [padded 0x42 0x4D 0 0 0 0 0x01 0x90 0x00 0x64]))).dataReady = true ∧
    (loop (withHoneywell
      (bench 1 false [padded 0x42 0x4D 0 0 0 0 0x01 0x90 0x00 0x64]))).dataCbCalls = 1 :=
  ⟨by decide,
    ((loop_gate_open (bench 1 false []) (by decide)).2.2.2
      (by decide) (by decide) (by decide)).2.1,
    ((loop_gate_open (bench 1 false []) (by decide)).2.2.2
      (by decide) (by decide) (by decide)).2.2 (by decide),
    (loop_gate_open (withHoneywell
      (bench 1 false [padded 0x42 0x4D 0 0 0 0 0x01 0x90 0x00 0x64])) (by decide)).1.trans
      (by decide),
    ((loop_gate_open (withHoneywell
      (bench 1 false [padded 0x42 0x4D 0 0 0 0 0x01 0x90 0x00 0x64])) (by decide)).2.1
      (by decide)).2 (by decide)⟩

/-- C10 (as the code has it): with Honeywell selected, a `loop()` pass with the
gate open whose channel delivers, within the retry budget, exactly the bytes
0x42,0x4D,0,0,0,0,0x01,0x90,0x00,0x64 ends with pm25 = 400, pm10 = 100 and
dataReady = true, a registered data callback being invoked once; since the
frame is shorter than 32 bytes, a registered error callback is invoked exactly
once, with the read-fail message of `hwSerialRead`. -/
theorem loop_ten_bytes (s : Sensors)
    (hgate : gateOpen (millis s).1 s = true)
    (hdev : s.device_type = Honeywell)
    (hchan : collected s.serial s.SENSOR_RETRY = tenBytes) :
    (loop s).pm25 = 400 ∧ (loop s).pm10 = 100 ∧ (loop s).dataReady = true ∧
    (s._onDataCb = true → (loop s).dataCbCalls = s.dataCbCalls + 1) ∧
    (s._onErrorCb = true → (loop s).errorCbCalls = s.errorCbCalls ++ [msgReadFail]) ∧
    (s._onErrorCb = false → (loop s).errorCbCalls = s.errorCbCalls) := by
  have hm := loopPrepare_members s
  have hcol : collected (loopPrepare (millis s).2).serial
      (loopPrepare (millis s).2).SENSOR_RETRY = tenBytes := by
    rw [hm.2.2.2.2.2.1, hm.2.2.2.2.2.2.1]
    exact hchan
  have hshort := hwSerialRead_short (loopPrepare (millis s).2) (by rw [hcol]; decide)
  rw [hcol] at hshort
  have hfr : (hwSerialRead (loopPrepare (millis s).2)).1 = tenBytes := by rw [hshort]
  have hdec := pmGenericRead_header (loopPrepare (millis s).2)
    (by rw [hfr]; rfl) (by rw [hfr]; rfl)
  rw [hfr] at hdec
  rw [if_neg (by decide)] at hdec
  have hread : pmSensorRead (loopPrepare (millis s).2)
      = (true, stored (hwSerialRead (loopPrepare (millis s).2)).2 400 100) := by
    unfold pmSensorRead
    rw [hm.1, if_pos hdev, hdec]
    rfl
  have hok : (pmSensorRead (loopPrepare (millis s).2)).1 = true := by rw [hread]
  have hgo := loop_success s hgate hok
  have hloop : loop s
      = { callDataCb (stored (hwSerialRead (loopPrepare (millis s).2)).2 400 100) with
          dataReady := true } := by
    rw [loop_open s hgate, loopBody_success _ hok, hread]
  have hcalls : (loop s).errorCbCalls
      = (hwSerialRead (loopPrepare (millis s).2)).2.errorCbCalls := by
    rw [hgo.2.1, hread]
    rfl
  refine ⟨?_, ?_, hgo.1, hgo.2.2, ?_, ?_⟩
  · rw [hloop]
    exact (callDataCb_members _).2.1
  · rw [hloop]
    exact (callDataCb_members _).2.2.1
  · intro hcb
    rw [hcalls, hshort]
    exact (callErrorCb_members _ _).2.1 hcb
  · intro hcb
    rw [hcalls, hshort]
    exact (callErrorCb_members _ _).2.2 hcb

/-- Witness of C10 as amended: Honeywell selected, a budget of 3 passes, the ten
bytes arriving in one burst and nothing more. -/
theorem loop_ten_bytes_witness :
    gateOpen (millis (withHoneywell (bench 3 false [tenBytes]))).1
      (withHoneywell (bench 3 false [tenBytes])) = true ∧
    (withHoneywell (bench 3 false [tenBytes])).device_type = Honeywell ∧
    collected (withHoneywell (bench 3 false [tenBytes])).serial
      (withHoneywell (bench 3 false [tenBytes])).SENSOR_RETRY = tenBytes ∧
    (loop (withHoneywell (bench 3 false [tenBytes]))).pm25 = 400 ∧
    (loop (withHoneywell (bench 3 false [tenBytes]))).pm10 = 100 ∧
    (loop (withHoneywell (bench 3 false [tenBytes]))).dataReady = true :=
  ⟨by decide, by decide, by decide,
    (loop_ten_bytes (withHoneywell (bench 3 false [tenBytes]))
      (by decide) (by decide) (by decide)).1,
    (loop_ten_bytes (withHoneywell (bench 3 false [tenBytes]))
      (by decide) (by decide) (by decide)).2.1,
    (loop_ten_bytes (withHoneywell (bench 3 false [tenBytes]))
      (by decide) (by decide) (by decide)).2.2.1⟩

/-- Counterexample to C10 as stated: with Honeywell selected, an error callback
registered and the channel delivering exactly the ten bytes and nothing more,
the pass ends with pm25 = 400, pm10 = 100, dataReady = true, but the error
callback has been invoked, with the read-fail message. -/
theorem loop_ten_bytes_signals_read_fail :
    (withHoneywell (bench 3 false [tenBytes])).serial
      = [[0x42, 0x4D, 0, 0, 0, 0, 0x01, 0x90, 0x00, 0x64]] ∧
    (withHoneywell (bench 3 false [tenBytes])).errorCbCalls = [] ∧
    (loop (withHoneywell (bench 3 false [tenBytes]))).pm25 = 400 ∧
    (loop (withHoneywell (bench 3 false [tenBytes]))).pm10 = 100 ∧
    (loop (withHoneywell (bench 3 false [tenBytes]))).dataReady = true ∧
    (loop (withHoneywell (bench 3 false [tenBytes]))).errorCbCalls = [msgReadFail] ∧
    ¬ ((loop (withHoneywell (bench 3 false [tenBytes]))).errorCbCalls
        = (withHoneywell (bench 3 false [tenBytes])).errorCbCalls) := by
  decide

/-! ## Length of the frame -/

theorem collected_succ (serial : List (List Nat)) (j : Nat) :
    collected serial (j + 1)
      = collected serial j ++ ((serial[j]?).getD []).map (fun b => b % 256) := by
  unfold collected
  rw [List.take_succ, List.flatten_append, List.map_append]
  cases serial[j]? with
  | none => simp
  | some burst => simp

theorem collected_succ_length (serial : List (List Nat)) (j m : Nat)
    (hm : ∀ burst ∈ serial, burst.length ≤ m) :
    (collected serial (j + 1)).length ≤ (collected serial j).length + m := by
  rw [collected_succ, List.length_append, List.length_map]
  cases h : serial[j]? with
  | none => simp
  | some burst =>
    have := hm burst (List.getElem?_mem h)
    simpa using this

/-- The frame of the read loop is what the first `k` of the permitted passes
deliver, fewer than 32 bytes having been collected before each of them. -/
theorem hwSerialReadLoop_passes (retry fuel : Nat) :
    ∀ (t : Nat) (txtMsg : List Nat) (serial : List (List Nat)), t + fuel = retry →
      ∃ k, k ≤ fuel ∧
        (hwSerialReadLoop retry fuel t txtMsg serial).1 = txtMsg ++ collected serial k ∧
        (hwSerialReadLoop retry fuel t txtMsg serial).2.2 = serial.drop k ∧
        (∀ j, j < k → (txtMsg ++ collected serial j).length < 32) ∧
        (k < fuel → 32 ≤ (hwSerialReadLoop retry fuel t txtMsg serial).1.length) := by
  induction fuel with
  | zero =>
    intro t txtMsg serial _
    exact ⟨0, Nat.le_refl _, by simp [hwSerialReadLoop, collected_zero],
      by simp [hwSerialReadLoop], fun j hj => absurd hj (Nat.not_lt_zero j),
      fun h => absurd h (Nat.lt_irrefl 0)⟩
  | succ n ih =>
    intro t txtMsg serial ht
    by_cases hl : txtMsg.length < 32
    · have htr : t < retry := by omega
      obtain ⟨k, hk, hfr, hser, hbefore, hstop⟩ :=
        ih (t + 1) (drain txtMsg serial).1 (drain txtMsg serial).2 (by omega)
      have hstep : hwSerialReadLoop retry (n + 1) t txtMsg serial
          = hwSerialReadLoop retry n (t + 1) (drain txtMsg serial).1 (drain txtMsg serial).2 := by
        simp only [hwSerialReadLoop, hwLoopCond, hl, htr, if_true, decide_True]
      refine ⟨k + 1, by omega, ?_, ?_, ?_, ?_⟩
      · rw [hstep, hfr, drain_collected]
      · rw [hstep, hser, drain_drop]
      · intro j hj
        cases j with
        | zero => simpa [collected_zero] using hl
        | succ i =>
          rw [← drain_collected]
          exact hbefore i (by omega)
      · intro hlt
        rw [hstep]
        exact hstop (by omega)
    · have hstep : hwSerialReadLoop retry (n + 1) t txtMsg serial = (txtMsg, t, serial) := by
        simp only [hwSerialReadLoop, hwLoopCond, hl, if_false, Bool.false_eq_true]
      refine ⟨0, by omega, by rw [hstep]; simp [collected_zero], by rw [hstep]; simp,
        fun j hj => absurd hj (Nat.not_lt_zero j), fun _ => ?_⟩
      rw [hstep]
      show 32 ≤ txtMsg.length
      omega

theorem hwSerialRead_fst (s : Sensors) :
    (hwSerialRead s).1 = (hwSerialReadLoop s.SENSOR_RETRY s.SENSOR_RETRY 0 [] s.serial).1 ∧
    (hwSerialRead s).2.serial
      = (hwSerialReadLoop s.SENSOR_RETRY s.SENSOR_RETRY 0 [] s.serial).2.2 := by
  unfold hwSerialRead onPmSensorError callErrorCb
  simp only []
  split <;> (try split) <;> exact ⟨rfl, rfl⟩

/-- C12 (as the code has it): for every channel behaviour the frame returned by
`hwSerialRead` is what the first `k` passes deliver, for some `k` within the
budget; fewer than 32 bytes had been collected before each of these passes and
no pass is started once 32 bytes have been collected.  The frame itself may
exceed 32 bytes: it has at most 31 bytes more than the longest burst a pass
delivers. -/
theorem hwSerialRead_stops_after_pass (s : Sensors) :
    (∃ k, k ≤ s.SENSOR_RETRY ∧
      (hwSerialRead s).1 = collected s.serial k ∧
      (hwSerialRead s).2.serial = s.serial.drop k ∧
      (∀ j, j < k → (collected s.serial j).length < 32) ∧
      (k < s.SENSOR_RETRY → 32 ≤ (hwSerialRead s).1.length)) ∧
    (∀ m, (∀ burst ∈ s.serial, burst.length ≤ m) →
      (hwSerialRead s).1.length ≤ 31 + m) := by
  obtain ⟨k, hk, hfr, hser, hbefore, hstop⟩ :=
    hwSerialReadLoop_passes s.SENSOR_RETRY s.SENSOR_RETRY 0 [] s.serial (by omega)
  have hf := hwSerialRead_fst s
  have hfr2 : (hwSerialRead s).1 = collected s.serial k := by
    rw [hf.1, hfr]; rfl
  have hbefore2 : ∀ j, j < k → (collected s.serial j).length < 32 := by
    intro j hj
    simpa using hbefore j hj
  refine ⟨⟨k, hk, hfr2, by rw [hf.2, hser], hbefore2, ?_⟩, ?_⟩
  · intro hlt
    rw [hf.1]
    exact hstop hlt
  · intro m hm
    rw [hfr2]
    cases k with
    | zero => simp [collected_zero]
    | succ i =>
      have h1 := collected_succ_length s.serial i m hm
      have h2 := hbefore2 i (by omega)
      omega

/-- Counterexample to C12 as stated: a single pass that finds 40 bytes available
appends all of them, and the frame returned has 40 bytes. -/
theorem hwSerialRead_frame_of_forty :
    (hwSerialRead (bench 1 false [List.replicate 40 7])).1.length = 40 ∧
    ¬ ((hwSerialRead (bench 1 false [List.replicate 40 7])).1.length ≤ 32) := by
  decide

/-- Witness of C12 as amended: a budget of one pass that finds 40 bytes. -/
theorem hwSerialRead_stops_after_pass_witness :
    (∀ burst ∈ (bench 1 false [List.replicate 40 7]).serial, burst.length ≤ 40) ∧
    (hwSerialRead (bench 1 false [List.replicate 40 7])).1.length ≤ 31 + 40 :=
  ⟨by decide,
    (hwSerialRead_stops_after_pass (bench 1 false [List.replicate 40 7])).2 40 (by decide)⟩

/-! ## Frames without the header -/

theorem charAt_eq_iff (s : Sensors) (i k : Nat) (hk : k < 128) :
    charAt s.charSigned (hwSerialRead s).1 i = (k : Int) ↔ byteAt (hwSerialRead s).1 i = k :=
  charToInt_eq_iff _ _ _ (hwSerialRead_byteAt_lt s i) hk

theorem pmGenericRead_mismatch (s : Sensors)
    (h : ¬ (byteAt (hwSerialRead s).1 0 = 0x42 ∧ byteAt (hwSerialRead s).1 1 = 0x4D)) :
    pmGenericRead s
      = (false, if byteAt (hwSerialRead s).1 0 = 0x42 then
          onPmSensorError msgGenericHeader (hwSerialRead s).2 else (hwSerialRead s).2) := by
  have e0 : charAt s.charSigned (hwSerialRead s).1 0 = 66
      ↔ byteAt (hwSerialRead s).1 0 = 66 := by
    simpa using charAt_eq_iff s 0 66 (by decide)
  have e1 : charAt s.charSigned (hwSerialRead s).1 1 = 77
      ↔ byteAt (hwSerialRead s).1 1 = 77 := by
    simpa using charAt_eq_iff s 1 77 (by decide)
  unfold pmGenericRead
  simp only []
  by_cases h0 : byteAt (hwSerialRead s).1 0 = 0x42
  · have h1 : ¬ byteAt (hwSerialRead s).1 1 = 0x4D := fun h1 => h ⟨h0, h1⟩
    rw [if_pos (e0.2 h0), if_neg (fun c => h1 (e1.1 c)), if_pos h0]
  · rw [if_neg (fun c => h0 (e0.1 c)), if_neg h0]

theorem pmPanasonicRead_mismatch (s : Sensors) (h : ¬ byteAt (hwSerialRead s).1 0 = 0x02) :
    pmPanasonicRead s = (false, onPmSensorError msgPanasonicHeader (hwSerialRead s).2) := by
  have e0 : charAt s.charSigned (hwSerialRead s).1 0 = 2
      ↔ byteAt (hwSerialRead s).1 0 = 2 := by
    simpa using charAt_eq_iff s 0 2 (by decide)
  unfold pmPanasonicRead
  simp only []
  rw [if_neg (fun c => h (e0.1 c))]

/-- C15: for every frame `pmPanasonicRead` returns true exactly when byte[0] is
0x02 and the decoded pm25 and pm10 are not both above 2000; with any other
leading byte it returns false and hands the invalid-header message to a
registered error callback; with both values above 2000 it returns false and
hands over the out-of-range message. -/
theorem pmPanasonicRead_accepts_iff (s : Sensors) :
    ((pmPanasonicRead s).1 = true ↔
      (byteAt (hwSerialRead s).1 0 = 0x02 ∧
        ¬ (2000 < byteAt (hwSerialRead s).1 6 * 256 + byteAt (hwSerialRead s).1 5 ∧
          2000 < byteAt (hwSerialRead s).1 10 * 256 + byteAt (hwSerialRead s).1 9))) ∧
    (byteAt (hwSerialRead s).1 0 ≠ 0x02 →
      (pmPanasonicRead s).1 = false ∧
      (s._onErrorCb = true →
        (pmPanasonicRead s).2.errorCbCalls
          = (hwSerialRead s).2.errorCbCalls ++ [msgPanasonicHeader])) ∧
    (byteAt (hwSerialRead s).1 0 = 0x02 →
      2000 < byteAt (hwSerialRead s).1 6 * 256 + byteAt (hwSerialRead s).1 5 →
      2000 < byteAt (hwSerialRead s).1 10 * 256 + byteAt (hwSerialRead s).1 9 →
      (pmPanasonicRead s).1 = false ∧
      (s._onErrorCb = true →
        (pmPanasonicRead s).2.errorCbCalls
          = (hwSerialRead s).2.errorCbCalls ++ [msgPanasonicRange])) := by
  have hcb : s._onErrorCb = true → (hwSerialRead s).2._onErrorCb = true := by
    intro h
    rw [(hwSerialRead_kept s).onErrorCb]
    exact h
  refine ⟨?_, ?_, ?_⟩
  · by_cases h0 : byteAt (hwSerialRead s).1 0 = 0x02
    · rw [pmPanasonicRead_header s h0]
      split
      · rename_i hr; simp [h0, hr]
      · rename_i hr
        constructor
        · intro _; exact ⟨h0, hr⟩
        · intro _; rfl
    · rw [pmPanasonicRead_mismatch s h0]
      simp [h0]
  · intro h0
    rw [pmPanasonicRead_mismatch s h0]
    exact ⟨rfl, fun h => onPmSensorError_calls _ _ (hcb h)⟩
  · intro h0 h25 h10
    rw [pmPanasonicRead_header s h0, if_pos ⟨h25, h10⟩]
    exact ⟨rfl, fun h => onPmSensorError_calls _ _ (hcb h)⟩

/-- Witness of C15: a frame with leading byte 0x03, and a frame with the
Panasonic header decoding to pm25 = pm10 = 0x0801 = 2049. -/
theorem pmPanasonicRead_accepts_iff_witness :
    byteAt (hwSerialRead (bench 1 false [padded 0x03 0 0 0 0 1 0 0 0 1])).1 0 ≠ 0x02 ∧
    (pmPanasonicRead (bench 1 false [padded 0x03 0 0 0 0 1 0 0 0 1])).1 = false ∧
    (pmPanasonicRead (bench 1 false [padded 0x03 0 0 0 0 1 0 0 0 1])).2.errorCbCalls
      = (hwSerialRead (bench 1 false [padded 0x03 0 0 0 0 1 0 0 0 1])).2.errorCbCalls
        ++ [msgPanasonicHeader] ∧
    (pmPanasonicRead (bench 1 false
      [[0x02, 0, 0, 0, 0, 1, 8, 0, 0, 1, 8] ++ List.replicate 21 0])).1 = false :=
  ⟨by decide,
    ((pmPanasonicRead_accepts_iff (bench 1 false [padded 0x03 0 0 0 0 1 0 0 0 1])).2.1
      (by decide)).1,
    ((pmPanasonicRead_accepts_iff (bench 1 false [padded 0x03 0 0 0 0 1 0 0 0 1])).2.1
      (by decide)).2 (by decide),
    ((pmPanasonicRead_accepts_iff (bench 1 false
      [[0x02, 0, 0, 0, 0, 1, 8, 0, 0, 1, 8] ++ List.replicate 21 0])).2.2
      (by decide) (by decide) (by decide)).1⟩

/-! ## Values left by a failed read -/

theorem headerMatches_honeywell (frame : List Nat) :
    headerMatches Honeywell frame = true ↔ (byteAt frame 0 = 0x42 ∧ byteAt frame 1 = 0x4D) := by
  simp [headerMatches]

theorem headerMatches_panasonic (frame : List Nat) :
    headerMatches Panasonic frame = true ↔ byteAt frame 0 = 0x02 := by
  have h : ¬ Panasonic = Honeywell := by decide
  simp [headerMatches, h]

theorem headerMatches_other (device_type : Int) (frame : List Nat)
    (h1 : device_type ≠ Honeywell) (h2 : device_type ≠ Panasonic) :
    headerMatches device_type frame = false := by
  simp [headerMatches, h1, h2]

theorem pmGenericRead_failed (s : Sensors) (h : (pmGenericRead s).1 = false) :
    (headerMatches Honeywell (hwSerialRead s).1 = false ∧
      (pmGenericRead s).2.pm25 = s.pm25 ∧ (pmGenericRead s).2.pm10 = s.pm10) ∨
    (headerMatches Honeywell (hwSerialRead s).1 = true ∧
      1000 < (pmGenericRead s).2.pm25 ∧ 1000 < (pmGenericRead s).2.pm10) := by
  by_cases hh : byteAt (hwSerialRead s).1 0 = 0x42 ∧ byteAt (hwSerialRead s).1 1 = 0x4D
  · right
    have hdec := pmGenericRead_header s hh.1 hh.2
    by_cases hr : 1000 < byteAt (hwSerialRead s).1 6 * 256 + byteAt (hwSerialRead s).1 7 ∧
        1000 < byteAt (hwSerialRead s).1 8 * 256 + byteAt (hwSerialRead s).1 9
    · rw [if_pos hr] at hdec
      rw [hdec]
      refine ⟨(headerMatches_honeywell _).2 hh, ?_, ?_⟩
      · rw [(onPmSensorError_pm _ _).2.1]; exact hr.1
      · rw [(onPmSensorError_pm _ _).2.2]; exact hr.2
    · rw [if_neg hr] at hdec
      rw [hdec] at h
      cases h
  · left
    have hm := pmGenericRead_mismatch s hh
    have hn : headerMatches Honeywell (hwSerialRead s).1 = false := by
      cases hc : headerMatches Honeywell (hwSerialRead s).1 with
      | false => rfl
      | true => exact absurd ((headerMatches_honeywell _).1 hc) hh
    rw [hm]
    refine ⟨hn, ?_, ?_⟩
    · show (if byteAt (hwSerialRead s).1 0 = 0x42 then
          onPmSensorError msgGenericHeader (hwSerialRead s).2 else (hwSerialRead s).2).pm25 = _
      split
      · rw [(onPmSensorError_pm _ _).2.1, (hwSerialRead_pm s).1]
      · exact (hwSerialRead_pm s).1
    · show (if byteAt (hwSerialRead s).1 0 = 0x42 then
          onPmSensorError msgGenericHeader (hwSerialRead s).2 else (hwSerialRead s).2).pm10 = _
      split
      · rw [(onPmSensorError_pm _ _).2.2, (hwSerialRead_pm s).2.1]
      · exact (hwSerialRead_pm s).2.1

theorem pmPanasonicRead_failed (s : Sensors) (h : (pmPanasonicRead s).1 = false) :
    (headerMatches Panasonic (hwSerialRead s).1 = false ∧
      (pmPanasonicRead s).2.pm25 = s.pm25 ∧ (pmPanasonicRead s).2.pm10 = s.pm10) ∨
    (headerMatches Panasonic (hwSerialRead s).1 = true ∧
      2000 < (pmPanasonicRead s).2.pm25 ∧ 2000 < (pmPanasonicRead s).2.pm10) := by
  by_cases hh : byteAt (hwSerialRead s).1 0 = 0x02
  · right
    have hdec := pmPanasonicRead_header s hh
    by_cases hr : 2000 < byteAt (hwSerialRead s).1 6 * 256 + byteAt (hwSerialRead s).1 5 ∧
        2000 < byteAt (hwSerialRead s).1 10 * 256 + byteAt (hwSerialRead s).1 9
    · rw [if_pos hr] at hdec
      rw [hdec]
      refine ⟨(headerMatches_panasonic _).2 hh, ?_, ?_⟩
      · rw [(onPmSensorError_pm _ _).2.1]; exact hr.1
      · rw [(onPmSensorError_pm _ _).2.2]; exact hr.2
    · rw [if_neg hr] at hdec
      rw [hdec] at h
      cases h
  · left
    have hn : headerMatches Panasonic (hwSerialRead s).1 = false := by
      cases hc : headerMatches Panasonic (hwSerialRead s).1 with
      | false => rfl
      | true => exact absurd ((headerMatches_panasonic _).1 hc) hh
    rw [pmPanasonicRead_mismatch s hh]
    refine ⟨hn, ?_, ?_⟩
    · show (onPmSensorError msgPanasonicHeader (hwSerialRead s).2).pm25 = _
      rw [(onPmSensorError_pm _ _).2.1, (hwSerialRead_pm s).1]
    · show (onPmSensorError msgPanasonicHeader (hwSerialRead s).2).pm10 = _
      rw [(onPmSensorError_pm _ _).2.2, (hwSerialRead_pm s).2.1]

theorem pmSensirionReadLoop_pm (fuel : Nat) :
    ∀ (error_cnt : Nat) (s : Sensors),
      (pmSensirionReadLoop fuel error_cnt s).2.pm25 = s.pm25 ∧
      (pmSensirionReadLoop fuel error_cnt s).2.pm10 = s.pm10 ∧
      (pmSensirionReadLoop fuel error_cnt s).2.errorCbCalls = s.errorCbCalls ∧
      (pmSensirionReadLoop fuel error_cnt s).2.serial = s.serial := by
  induction fuel with
  | zero => intro error_cnt s; exact ⟨rfl, rfl, rfl, rfl⟩
  | succ n ih =>
    intro error_cnt s
    simp only [pmSensirionReadLoop, pmSensirionErrtoMess]
    split
    · split
      · exact ⟨rfl, rfl, rfl, rfl⟩
      · exact ih _ (spsGetValues s).2
    · split <;> exact ⟨rfl, rfl, rfl, rfl⟩

theorem appends_refl (s : Sensors) : Appends 0 s s :=
  ⟨[], by simp, Nat.le_refl _⟩

theorem appends_of_eq {s t : Sensors} (h : t.errorCbCalls = s.errorCbCalls) : Appends 0 s t :=
  ⟨[], by simp [h], Nat.le_refl _⟩

theorem appends_trans {m n : Nat} {a b c : Sensors} (h1 : Appends m a b) (h2 : Appends n b c) :
    Appends (m + n) a c := by
  obtain ⟨l1, e1, b1⟩ := h1
  obtain ⟨l2, e2, b2⟩ := h2
  refine ⟨l1 ++ l2, by rw [e2, e1, List.append_assoc], ?_⟩
  rw [List.length_append]
  omega

theorem appends_mono {m n : Nat} {a b : Sensors} (h : Appends m a b) (hmn : m ≤ n) :
    Appends n a b := by
  obtain ⟨l, e, b⟩ := h
  exact ⟨l, e, by omega⟩

theorem callErrorCb_appends (msg : String) (s : Sensors) : Appends 1 s (callErrorCb msg s) := by
  unfold callErrorCb
  split
  · exact ⟨[msg], rfl, Nat.le_refl _⟩
  · exact ⟨[], by simp, by simp⟩

theorem hwSerialRead_appends (s : Sensors) : Appends 1 s (hwSerialRead s).2 := by
  unfold hwSerialRead
  simp only []
  split
  · exact callErrorCb_appends _ _
  · exact ⟨[], by simp, by simp⟩

theorem stored_appends {n : Nat} {s t : Sensors} (a b : Nat) (h : Appends n s t) :
    Appends n s (stored t a b) := h

theorem pmGenericRead_appends (s : Sensors) : Appends 2 s (pmGenericRead s).2 := by
  by_cases hh : byteAt (hwSerialRead s).1 0 = 0x42 ∧ byteAt (hwSerialRead s).1 1 = 0x4D
  · rw [pmGenericRead_header s hh.1 hh.2]
    split
    · exact appends_trans (stored_appends _ _ (hwSerialRead_appends s)) (callErrorCb_appends _ _)
    · exact appends_mono (stored_appends _ _ (hwSerialRead_appends s)) (by omega)
  · rw [pmGenericRead_mismatch s hh]
    show Appends 2 s (if byteAt (hwSerialRead s).1 0 = 0x42 then
      onPmSensorError msgGenericHeader (hwSerialRead s).2 else (hwSerialRead s).2)
    split
    · exact appends_trans (hwSerialRead_appends s) (callErrorCb_appends _ _)
    · exact appends_mono (hwSerialRead_appends s) (by omega)

theorem pmPanasonicRead_appends (s : Sensors) : Appends 2 s (pmPanasonicRead s).2 := by
  by_cases hh : byteAt (hwSerialRead s).1 0 = 0x02
  · rw [pmPanasonicRead_header s hh]
    split
    · exact appends_trans (stored_appends _ _ (hwSerialRead_appends s)) (callErrorCb_appends _ _)
    · exact appends_mono (stored_appends _ _ (hwSerialRead_appends s)) (by omega)
  · rw [pmPanasonicRead_mismatch s hh]
    exact appends_trans (hwSerialRead_appends s) (callErrorCb_appends _ _)

theorem pmSensirionRead_appends (s : Sensors) : Appends 1 s (pmSensirionRead s).2 := by
  have hpm := pmSensirionReadLoop_pm 5 0 s
  unfold pmSensirionRead
  split
  · rename_i s1 heq
    rw [heq] at hpm
    exact appends_mono (appends_of_eq hpm.2.2.1) (by omega)
  · rename_i v s1 heq
    rw [heq] at hpm
    simp only []
    split
    · have h1 : Appends 0 s { { s1 with pm25 := v.1 % 65536 } with pm10 := v.2 % 65536 } :=
        appends_of_eq hpm.2.2.1
      exact appends_mono (appends_trans h1 (callErrorCb_appends _ _)) (by omega)
    · exact appends_mono (appends_of_eq hpm.2.2.1) (by omega)

theorem pmSensorRead_appends (s : Sensors) : Appends 2 s (pmSensorRead s).2 := by
  unfold pmSensorRead
  split
  · exact pmGenericRead_appends s
  · split
    · exact pmPanasonicRead_appends s
    · split
      · exact appends_mono (pmSensirionRead_appends s) (by omega)
      · exact appends_mono (appends_refl s) (by omega)

/-- The PM values after a pass with the gate open are those left by the read. -/
theorem loop_pm (s : Sensors) (hgate : gateOpen (millis s).1 s = true) :
    (loop s).pm1 = (pmSensorRead (loopPrepare (millis s).2)).2.pm1 ∧
    (loop s).pm25 = (pmSensorRead (loopPrepare (millis s).2)).2.pm25 ∧
    (loop s).pm10 = (pmSensorRead (loopPrepare (millis s).2)).2.pm10 := by
  rw [loop_open s hgate]
  unfold loopBody callDataCb callErrorCb
  simp only []
  split <;> split <;> exact ⟨rfl, rfl, rfl⟩

/-- C18 (as the code has it): in a `loop()` pass with the gate open and an error
callback registered whose PM read fails, the callback is invoked once by
`loop()` itself, with the not-configured message, after at most two
invocations made during the read (read-fail, then invalid-header or
out-of-range): one to three invocations in all.  It is invoked exactly once
when no protocol is selected and when the Sensirion driver reports an error. -/
theorem loop_failure_callbacks (s : Sensors) (hgate : gateOpen (millis s).1 s = true)
    (hcb : s._onErrorCb = true)
    (hfail : (pmSensorRead (loopPrepare (millis s).2)).1 = false) :
    (∃ more : List String, more.length ≤ 2 ∧
      (pmSensorRead (loopPrepare (millis s).2)).2.errorCbCalls = s.errorCbCalls ++ more ∧
      (loop s).errorCbCalls = s.errorCbCalls ++ more ++ [msgNotConfigured]) ∧
    (s.device_type ≠ Honeywell → s.device_type ≠ Panasonic → s.device_type ≠ Sensirion →
      (loop s).errorCbCalls = s.errorCbCalls ++ [msgNotConfigured]) ∧
    (s.device_type = Sensirion →
      (pmSensirionReadLoop 5 0 (loopPrepare (millis s).2)).1 = none →
      (loop s).errorCbCalls = s.errorCbCalls ++ [msgNotConfigured]) := by
  have hm := loopPrepare_members s
  have hf := (loop_failure s hgate hfail).2.2 hcb
  refine ⟨?_, ?_, ?_⟩
  · obtain ⟨more, e, b⟩ := pmSensorRead_appends (loopPrepare (millis s).2)
    rw [hm.2.2.2.2.1] at e
    exact ⟨more, b, e, by rw [hf, e]⟩
  · intro h1 h2 h3
    have hr : pmSensorRead (loopPrepare (millis s).2) = (false, loopPrepare (millis s).2) := by
      unfold pmSensorRead
      rw [hm.1, if_neg h1, if_neg h2, if_neg h3]
    rw [hf, hr]
    show (loopPrepare (millis s).2).errorCbCalls ++ [msgNotConfigured] = _
    rw [hm.2.2.2.2.1]
  · intro hS hnone
    have hH : ¬ s.device_type = Honeywell := by rw [hS]; decide
    have hP : ¬ s.device_type = Panasonic := by rw [hS]; decide
    have hr : pmSensorRead (loopPrepare (millis s).2)
        = pmSensirionRead (loopPrepare (millis s).2) := by
      unfold pmSensorRead
      rw [hm.1, if_neg hH, if_neg hP, if_pos hS]
    have hpm := pmSensirionReadLoop_pm 5 0 (loopPrepare (millis s).2)
    have hread : (pmSensirionRead (loopPrepare (millis s).2)).2.errorCbCalls
        = s.errorCbCalls := by
      unfold pmSensirionRead
      split
      · rename_i s1 heq
        rw [heq] at hpm
        rw [hpm.2.2.1, hm.2.2.2.2.1]
      · rename_i v s1 heq
        rw [heq] at hnone
        simp at hnone
    rw [hf, hr, hread]

/-- Witness of C18 as amended: a pass on an object with no protocol selected. -/
theorem loop_failure_callbacks_witness :
    gateOpen (millis (bench 1 false [])).1 (bench 1 false []) = true ∧
    (bench 1 false [])._onErrorCb = true ∧
    (pmSensorRead (loopPrepare (millis (bench 1 false [])).2)).1 = false ∧
    (loop (bench 1 false [])).errorCbCalls
      = (bench 1 false []).errorCbCalls ++ [msgNotConfigured] :=
  ⟨by decide, by decide, by decide,
    (loop_failure_callbacks (bench 1 false []) (by decide) (by decide) (by decide)).2.1
      (by decide) (by decide) (by decide)⟩

/-- Counterexample to C18 as stated: with Panasonic selected and a complete
32-byte frame whose first byte is not 0x02, the PM read fails and the error
callback is invoked twice during the pass, with the invalid-header message and
with the not-configured message. -/
theorem loop_header_error_reported_twice :
    (withPanasonic (bench 1 false [padded 0x42 0x4D 0 0 0 0 0x01 0x90 0x00 0x64])).errorCbCalls
      = [] ∧
    (pmSensorRead (loopPrepare (millis (withPanasonic
      (bench 1 false [padded 0x42 0x4D 0 0 0 0 0x01 0x90 0x00 0x64]))).2)).1 = false ∧
    (loop (withPanasonic
      (bench 1 false [padded 0x42 0x4D 0 0 0 0 0x01 0x90 0x00 0x64]))).errorCbCalls
      = [msgPanasonicHeader, msgNotConfigured] ∧
    ¬ ((loop (withPanasonic
      (bench 1 false [padded 0x42 0x4D 0 0 0 0 0x01 0x90 0x00 0x64]))).errorCbCalls.length
        = 1) := by
  decide

/-! ## A pass whose frame read runs out of budget -/

/-- The read of a frame that stays short of 32 bytes, with an error callback
registered: the frame, and the trace with the read-fail message added. -/
theorem hwSerialRead_short_calls (s : Sensors) (hcb : s._onErrorCb = true)
    (h : (collected s.serial s.SENSOR_RETRY).length < 32) :
    (hwSerialRead s).1 = collected s.serial s.SENSOR_RETRY ∧
    (hwSerialRead s).2.errorCbCalls = s.errorCbCalls ++ [msgReadFail] ∧
    (hwSerialRead s).2._onErrorCb = true := by
  have hs := hwSerialRead_short s h
  refine ⟨by rw [hs], ?_, by rw [(hwSerialRead_kept s).onErrorCb]; exact hcb⟩
  rw [hs]
  exact onPmSensorError_calls _ _ hcb

theorem msgReadFail_not_mem :
    msgReadFail ∉ [msgNotConfigured] ∧ msgReadFail ∉ [msgGenericHeader, msgNotConfigured] ∧
    msgReadFail ∉ [msgPanasonicHeader, msgNotConfigured] := by
  decide

/-- C11 (as the code has it): for every `loop()` pass with the gate open and an
error callback registered, Honeywell or Panasonic selected and any retry budget,
in which the frame read exhausts its budget before 32 bytes are collected and
the bytes collected do not start with the header of the selected decoder (as
when no byte is ever available), the read-fail message is handed to the error
callback exactly once, followed by at most two other messages; dataReady is
false afterwards and pm1, pm25, pm10 are unchanged. -/
theorem loop_read_timeout (s : Sensors) (hgate : gateOpen (millis s).1 s = true)
    (hcb : s._onErrorCb = true)
    (hdev : s.device_type = Honeywell ∨ s.device_type = Panasonic)
    (hshort : (collected s.serial s.SENSOR_RETRY).length < 32)
    (hhdr : headerMatches s.device_type (collected s.serial s.SENSOR_RETRY) = false) :
    (∃ others : List String, others.length ≤ 2 ∧ msgReadFail ∉ others ∧
      (loop s).errorCbCalls = s.errorCbCalls ++ msgReadFail :: others) ∧
    (loop s).dataReady = false ∧
    (loop s).pm1 = s.pm1 ∧ (loop s).pm25 = s.pm25 ∧ (loop s).pm10 = s.pm10 := by
  have hm := loopPrepare_members s
  have hcbp : (loopPrepare (millis s).2)._onErrorCb = true := by rw [hm.2.2.1]; exact hcb
  have hshortp : (collected (loopPrepare (millis s).2).serial
      (loopPrepare (millis s).2).SENSOR_RETRY).length < 32 := by
    rw [hm.2.2.2.2.2.1, hm.2.2.2.2.2.2.1]; exact hshort
  have hw := hwSerialRead_short_calls (loopPrepare (millis s).2) hcbp hshortp
  rw [hm.2.2.2.2.2.1, hm.2.2.2.2.2.2.1, hm.2.2.2.2.1] at hw
  have hpm := loop_pm s hgate
  have hk := pmSensorRead_kept (loopPrepare (millis s).2)
  rcases hdev with hH | hP
  · have hr : pmSensorRead (loopPrepare (millis s).2)
        = pmGenericRead (loopPrepare (millis s).2) := by
      unfold pmSensorRead
      rw [hm.1, if_pos hH]
    have hno : ¬ (byteAt (hwSerialRead (loopPrepare (millis s).2)).1 0 = 0x42 ∧
        byteAt (hwSerialRead (loopPrepare (millis s).2)).1 1 = 0x4D) := by
      intro hc
      have := (headerMatches_honeywell _).2 hc
      rw [hw.1, ← hH, hhdr] at this
      cases this
    have hmis := pmGenericRead_mismatch (loopPrepare (millis s).2) hno
    have hfalse : (pmSensorRead (loopPrepare (millis s).2)).1 = false := by rw [hr, hmis]
    have hf := loop_failure s hgate hfalse
    have hvals := pmGenericRead_failed (loopPrepare (millis s).2) (by rw [hmis])
    have hunch : (pmGenericRead (loopPrepare (millis s).2)).2.pm25 = s.pm25 ∧
        (pmGenericRead (loopPrepare (millis s).2)).2.pm10 = s.pm10 := by
      rcases hvals with c | c
      · exact ⟨by rw [c.2.1, hm.2.2.2.2.2.2.2.2.1], by rw [c.2.2, hm.2.2.2.2.2.2.2.2.2]⟩
      · exact absurd ((headerMatches_honeywell _).1 c.1) hno
    refine ⟨?_, hf.1, by rw [hpm.1, hk.pm1, hm.2.2.2.2.2.2.2.1],
      by rw [hpm.2.1, hr, hunch.1], by rw [hpm.2.2, hr, hunch.2]⟩
    have hcalls := hf.2.2 hcb
    rw [hr, hmis] at hcalls
    by_cases h0 : byteAt (hwSerialRead (loopPrepare (millis s).2)).1 0 = 0x42
    · refine ⟨[msgGenericHeader, msgNotConfigured], by simp, msgReadFail_not_mem.2.1, ?_⟩
      rw [hcalls]
      show (if byteAt (hwSerialRead (loopPrepare (millis s).2)).1 0 = 0x42 then
        onPmSensorError msgGenericHeader (hwSerialRead (loopPrepare (millis s).2)).2
        else (hwSerialRead (loopPrepare (millis s).2)).2).errorCbCalls ++ [msgNotConfigured] = _
      rw [if_pos h0, onPmSensorError_calls _ _ hw.2.2, hw.2.1]
      simp
    · refine ⟨[msgNotConfigured], by simp, msgReadFail_not_mem.1, ?_⟩
      rw [hcalls]
      show (if byteAt (hwSerialRead (loopPrepare (millis s).2)).1 0 = 0x42 then
        onPmSensorError msgGenericHeader (hwSerialRead (loopPrepare (millis s).2)).2
        else (hwSerialRead (loopPrepare (millis s).2)).2).errorCbCalls ++ [msgNotConfigured] = _
      rw [if_neg h0, hw.2.1]
      simp
  · have hHn : ¬ s.device_type = Honeywell := by rw [hP]; decide
    have hr : pmSensorRead (loopPrepare (millis s).2)
        = pmPanasonicRead (loopPrepare (millis s).2) := by
      unfold pmSensorRead
      rw [hm.1, if_neg hHn, if_pos hP]
    have hno : ¬ byteAt (hwSerialRead (loopPrepare (millis s).2)).1 0 = 0x02 := by
      intro hc
      have := (headerMatches_panasonic _).2 hc
      rw [hw.1, ← hP, hhdr] at this
      cases this
    have hmis := pmPanasonicRead_mismatch (loopPrepare (millis s).2) hno
    have hfalse : (pmSensorRead (loopPrepare (millis s).2)).1 = false := by rw [hr, hmis]
    have hf := loop_failure s hgate hfalse
    have hvals := pmPanasonicRead_failed (loopPrepare (millis s).2) (by rw [hmis])
    have hunch : (pmPanasonicRead (loopPrepare (millis s).2)).2.pm25 = s.pm25 ∧
        (pmPanasonicRead (loopPrepare (millis s).2)).2.pm10 = s.pm10 := by
      rcases hvals with c | c
      · exact ⟨by rw [c.2.1, hm.2.2.2.2.2.2.2.2.1], by rw [c.2.2, hm.2.2.2.2.2.2.2.2.2]⟩
      · exact absurd ((headerMatches_panasonic _).1 c.1) hno
    refine ⟨?_, hf.1, by rw [hpm.1, hk.pm1, hm.2.2.2.2.2.2.2.1],
      by rw [hpm.2.1, hr, hunch.1], by rw [hpm.2.2, hr, hunch.2]⟩
    have hcalls := hf.2.2 hcb
    rw [hr, hmis] at hcalls
    refine ⟨[msgPanasonicHeader, msgNotConfigured], by simp, msgReadFail_not_mem.2.2, ?_⟩
    rw [hcalls]
    show (onPmSensorError msgPanasonicHeader
      (hwSerialRead (loopPrepare (millis s).2)).2).errorCbCalls ++ [msgNotConfigured] = _
    rw [onPmSensorError_calls _ _ hw.2.2, hw.2.1]
    simp

/-- Witness of C11 as amended: Honeywell selected, a budget of 4 passes and a
channel on which no byte is ever available. -/
theorem loop_read_timeout_witness :
    gateOpen (millis (withHoneywell (bench 4 false []))).1 (withHoneywell (bench 4 false []))
      = true ∧
    (collected (withHoneywell (bench 4 false [])).serial
      (withHoneywell (bench 4 false [])).SENSOR_RETRY).length < 32 ∧
    (loop (withHoneywell (bench 4 false []))).dataReady = false ∧
    (loop (withHoneywell (bench 4 false []))).pm25 = (withHoneywell (bench 4 false [])).pm25 :=
  ⟨by decide, by decide,
    (loop_read_timeout (withHoneywell (bench 4 false [])) (by decide) (by decide)
      (by decide) (by decide) (by decide)).2.1,
    (loop_read_timeout (withHoneywell (bench 4 false [])) (by decide) (by decide)
      (by decide) (by decide) (by decide)).2.2.2.1⟩

/-- Counterexample to C11 as stated: with Honeywell selected and pm25 = pm10 = 0
cached, the channel delivers the ten bytes of a Generic frame start and nothing
more; the frame read exhausts its budget of 3 passes with 10 bytes and signals
the read failure, yet the pass ends with dataReady = true and pm25 = 400,
pm10 = 100. -/
theorem loop_short_frame_still_decoded :
    (collected (withHoneywell (bench 3 false [tenBytes])).serial
      (withHoneywell (bench 3 false [tenBytes])).SENSOR_RETRY).length = 10 ∧
    (withHoneywell (bench 3 false [tenBytes])).pm25 = 0 ∧
    (withHoneywell (bench 3 false [tenBytes])).pm10 = 0 ∧
    (hwSerialRead (loopPrepare
      (millis (withHoneywell (bench 3 false [tenBytes]))).2)).2.errorCbCalls = [msgReadFail] ∧
    (loop (withHoneywell (bench 3 false [tenBytes]))).dataReady = true ∧
    (loop (withHoneywell (bench 3 false [tenBytes]))).pm25 = 400 ∧
    (loop (withHoneywell (bench 3 false [tenBytes]))).pm10 = 100 ∧
    ¬ ((loop (withHoneywell (bench 3 false [tenBytes]))).dataReady = false ∧
      (loop (withHoneywell (bench 3 false [tenBytes]))).pm25
        = (withHoneywell (bench 3 false [tenBytes])).pm25) := by
  decide

/-! ## Detection that fails throughout -/

/-- When the three attempts of the detection loop all fail, the loop ends in the
state after the third, with the selection and the callbacks as before. -/
theorem pmSensorInitLoop_all_failed (pms_type : Int) (s : Sensors)
    (hall : ∀ k, k < 3 → (pmSensorAutoDetect pms_type (afterAttempts pms_type k s)).1 = false) :
    pmSensorInitLoop pms_type 2 0 s = afterAttempts pms_type 3 s ∧
    (afterAttempts pms_type 3 s).device_type = s.device_type ∧
    (afterAttempts pms_type 3 s).device_selected = s.device_selected ∧
    (afterAttempts pms_type 3 s)._onErrorCb = s._onErrorCb := by
  have f0 : (pmSensorAutoDetect pms_type s).1 = false := hall 0 (by omega)
  have f1 := hall 1 (by omega)
  have f2 := hall 2 (by omega)
  have d1 := pmSensorAutoDetect_failed pms_type s f0
  have d2 := pmSensorAutoDetect_failed pms_type _ f1
  have d3 := pmSensorAutoDetect_failed pms_type _ f2
  refine ⟨?_, ?_, ?_, ?_⟩
  · rcases pmSensorInitLoop_cases pms_type s with h | h | h
    · rw [f0] at h; simp at h
    · rw [f1] at h; simp at h
    · exact h.2.2
  · show (pmSensorAutoDetect pms_type (afterAttempts pms_type 2 s)).2.device_type = _
    rw [d3.1]
    show (pmSensorAutoDetect pms_type (afterAttempts pms_type 1 s)).2.device_type = _
    rw [d2.1]
    exact d1.1
  · show (pmSensorAutoDetect pms_type (afterAttempts pms_type 2 s)).2.device_selected = _
    rw [d3.2.1]
    show (pmSensorAutoDetect pms_type (afterAttempts pms_type 1 s)).2.device_selected = _
    rw [d2.2.1]
    exact d1.2.1
  · show (pmSensorAutoDetect pms_type (afterAttempts pms_type 2 s)).2._onErrorCb = _
    rw [d3.2.2]
    show (pmSensorAutoDetect pms_type (afterAttempts pms_type 1 s)).2._onErrorCb = _
    rw [d2.2.2]
    exact d1.2.2

/-- C13 (as the code has it): when every detection attempt inside
`pmSensorInit` fails, the device type and its label are left as they were.  From
a state with no protocol selected (device type below 0) the result is: still
none selected, `isPmSensorConfigured()` false, `pmSensorInit` returns false and a
registered error callback receives the detection-failed message.  From a state
with a protocol selected earlier (as on `restart()`) that selection stays,
`pmSensorInit` returns true and the message is not sent. -/
theorem pmSensorInit_all_failed (pms_type : Int) (s : Sensors)
    (hall : ∀ k, k < 3 → (pmSensorAutoDetect pms_type (afterAttempts pms_type k s)).1 = false) :
    (pmSensorInit pms_type s).2.device_type = s.device_type ∧
    (pmSensorInit pms_type s).2.device_selected = s.device_selected ∧
    (s.device_type < 0 →
      (pmSensorInit pms_type s).1 = false ∧
      isPmSensorConfigured (pmSensorInit pms_type s).2 = false ∧
      (s._onErrorCb = true →
        (pmSensorInit pms_type s).2.errorCbCalls
          = (afterAttempts pms_type 3 s).errorCbCalls ++ [msgDetectionFailed])) ∧
    (0 ≤ s.device_type →
      (pmSensorInit pms_type s).1 = true ∧
      isPmSensorConfigured (pmSensorInit pms_type s).2 = true ∧
      (pmSensorInit pms_type s).2.errorCbCalls = (afterAttempts pms_type 3 s).errorCbCalls) := by
  obtain ⟨hloop, hdt, hsel, hcb⟩ := pmSensorInitLoop_all_failed pms_type s hall
  by_cases hneg : s.device_type < 0
  · have hn : ¬ (afterAttempts pms_type 3 s).device_type ≥ 0 := by rw [hdt]; omega
    have hinit : pmSensorInit pms_type s
        = (false, callErrorCb msgDetectionFailed (afterAttempts pms_type 3 s)) := by
      unfold pmSensorInit
      simp only [hloop, hn, if_false]
    have hk := callErrorCb_kept msgDetectionFailed (afterAttempts pms_type 3 s)
    have hdt2 : (pmSensorInit pms_type s).2.device_type = s.device_type := by
      rw [hinit]
      show (callErrorCb msgDetectionFailed (afterAttempts pms_type 3 s)).device_type = _
      rw [hk.device_type, hdt]
    refine ⟨hdt2, ?_, ?_, ?_⟩
    · rw [hinit]
      show (callErrorCb msgDetectionFailed (afterAttempts pms_type 3 s)).device_selected = _
      rw [hk.device_selected, hsel]
    · intro _
      refine ⟨by rw [hinit], ?_, ?_⟩
      · unfold isPmSensorConfigured
        rw [hdt2]
        simp
        omega
      · intro hreg
        rw [hinit]
        exact (callErrorCb_members _ _).2.1 (by rw [hcb]; exact hreg)
    · intro hpos
      omega
  · have hp : (afterAttempts pms_type 3 s).device_type ≥ 0 := by rw [hdt]; omega
    have hinit : pmSensorInit pms_type s = (true, afterAttempts pms_type 3 s) := by
      unfold pmSensorInit
      simp only [hloop, hp, if_true]
    refine ⟨by rw [hinit]; exact hdt, by rw [hinit]; exact hsel, fun h => absurd h hneg, ?_⟩
    intro _
    refine ⟨by rw [hinit], ?_, by rw [hinit]⟩
    unfold isPmSensorConfigured
    rw [hinit]
    simpa using hp

/-- Witness of C13 as amended: autodetection on a silent channel, from a fresh
object. -/
theorem pmSensorInit_all_failed_witness :
    (∀ k, k < 3 →
      (pmSensorAutoDetect (-1) (afterAttempts (-1) k (bench 1 false []))).1 = false) ∧
    (bench 1 false []).device_type < 0 ∧
    (pmSensorInit (-1) (bench 1 false [])).1 = false ∧
    isPmSensorConfigured (pmSensorInit (-1) (bench 1 false [])).2 = false :=
  ⟨by decide, by decide,
    ((pmSensorInit_all_failed (-1) (bench 1 false []) (by decide)).2.2.1 (by decide)).1,
    ((pmSensorInit_all_failed (-1) (bench 1 false []) (by decide)).2.2.1 (by decide)).2.1⟩

/-- Counterexample to C13 as stated: an object on which Honeywell was selected
earlier is initialised again on a silent channel; every detection attempt
fails, yet the device type is still Honeywell, `isPmSensorConfigured()` is
true, `pmSensorInit` returns true and the detection-failed message is not among
the messages handed to the error callback. -/
theorem pmSensorInit_keeps_earlier_selection :
    (∀ k, k < 3 →
      (pmSensorAutoDetect (-1)
        (afterAttempts (-1) k (withHoneywell (bench 1 false [])))).1 = false) ∧
    (pmSensorInit (-1) (withHoneywell (bench 1 false []))).1 = true ∧
    (pmSensorInit (-1) (withHoneywell (bench 1 false []))).2.device_type = Honeywell ∧
    isPmSensorConfigured (pmSensorInit (-1) (withHoneywell (bench 1 false []))).2 = true ∧
    msgDetectionFailed
      ∉ (pmSensorInit (-1) (withHoneywell (bench 1 false []))).2.errorCbCalls := by
  decide

/-! ## The time gate with a sample time of zero or less -/

theorem millis_lt (s : Sensors) : (millis s).1 < 2 ^ 32 :=
  Nat.mod_lt _ (by decide)

theorem gateOpen_zero (now : Nat) (s : Sensors) (h0 : s.sample_time = 0)
    (hnow : now < 2 ^ 64) (hstamp : s.pmLoopTimeStamp < 2 ^ 64) :
    gateOpen now s = true ↔ now ≠ s.pmLoopTimeStamp := by
  unfold gateOpen
  rw [h0]
  simp only [decide_eq_true_eq]
  omega

theorem gateOpen_negative (now : Nat) (s : Sensors) (hneg : s.sample_time < 0)
    (hint : -2147483648 ≤ s.sample_time * 1000)
    (hnow : now < 2 ^ 32) (hstamp : s.pmLoopTimeStamp ≤ now) :
    gateOpen now s = false := by
  have h1 : (s.sample_time * 1000) % 2 ^ 64 = s.sample_time * 1000 + 2 ^ 64 := by
    rw [← Int.add_emod_self]
    exact Int.emod_eq_of_lt (by omega) (by omega)
  have h2 : ((now : Int) - (s.pmLoopTimeStamp : Int)) % 2 ^ 64
      = (now : Int) - (s.pmLoopTimeStamp : Int) :=
    Int.emod_eq_of_lt (by omega) (by omega)
  unfold gateOpen
  rw [h1, h2]
  simp only [decide_eq_false_iff_not]
  omega

/-- C16 (as the code has it): the gate compares the unsigned 64-bit elapsed time
with `sample_time * 1000` converted to unsigned 64 bits, strictly.  With a
sample time of zero `loop()` executes the sampling body exactly when the clock
value differs from `pmLoopTimeStamp`, so not in the millisecond of the previous
sample; with a negative sample time (whose product fits an `int`) it skips the
body for every clock value that is not before `pmLoopTimeStamp`. -/
theorem loop_gate_nonpositive (s : Sensors) :
    (s.sample_time = 0 → s.pmLoopTimeStamp < 2 ^ 64 →
      ((millis s).1 ≠ s.pmLoopTimeStamp → loop s = loopBody (millis s).2) ∧
      ((millis s).1 = s.pmLoopTimeStamp → loop s = (millis s).2)) ∧
    (s.sample_time < 0 → -2147483648 ≤ s.sample_time * 1000 →
      s.pmLoopTimeStamp ≤ (millis s).1 → loop s = (millis s).2) := by
  have hlt := millis_lt s
  refine ⟨?_, ?_⟩
  · intro h0 hst
    have hiff := gateOpen_zero (millis s).1 s h0 (by omega) hst
    constructor
    · intro hne
      exact loop_open s (hiff.2 hne)
    · intro heq
      have hc : ¬ gateOpen (millis s).1 s = true := fun hg => (hiff.1 hg) heq
      unfold loop
      rw [if_neg hc]
  · intro hneg hint hle
    have hc := gateOpen_negative (millis s).1 s hneg hint hlt hle
    unfold loop
    rw [hc]
    simp

/-- Witness of C16 as amended: sample time -1 with the clock at 6000 ms and the
last sample at 0 ms. -/
theorem loop_gate_nonpositive_witness :
    (setSampleTime (-1) (bench 1 false [])).sample_time < 0 ∧
    (loop (setSampleTime (-1) (bench 1 false []))).millisCalls
      = (millis (setSampleTime (-1) (bench 1 false []))).2.millisCalls :=
  ⟨by decide,
    congrArg Sensors.millisCalls
      ((loop_gate_nonpositive (setSampleTime (-1) (bench 1 false []))).2
        (by decide) (by decide) (by decide))⟩

/-- Counterexample to C16 as stated: with sample time 0 and the clock at the
value of `pmLoopTimeStamp`, and with sample time -1 and the clock 6 seconds
later, the gate is closed and `loop()` returns without sampling: the error
callback, which the body would invoke on this object with no protocol selected,
is not invoked and `millis()` has been read once only. -/
theorem loop_gate_closed_for_nonpositive :
    (setOnErrorCallBack true (fresh 0 1 false [] (fun _ => 0))).sample_time = 0 ∧
    gateOpen (millis (setOnErrorCallBack true (fresh 0 1 false [] (fun _ => 0)))).1
      (setOnErrorCallBack true (fresh 0 1 false [] (fun _ => 0))) = false ∧
    (loop (setOnErrorCallBack true (fresh 0 1 false [] (fun _ => 0)))).errorCbCalls = [] ∧
    (loopBody (millis (setOnErrorCallBack true
      (fresh 0 1 false [] (fun _ => 0)))).2).errorCbCalls = [msgNotConfigured] ∧
    (loop (setOnErrorCallBack true (fresh 0 1 false [] (fun _ => 0)))).millisCalls = 1 ∧
    (setSampleTime (-1) (bench 1 false [])).sample_time = -1 ∧
    (millis (setSampleTime (-1) (bench 1 false []))).1 = 6000 ∧
    gateOpen (millis (setSampleTime (-1) (bench 1 false []))).1
      (setSampleTime (-1) (bench 1 false [])) = false ∧
    (loop (setSampleTime (-1) (bench 1 false []))).errorCbCalls = [] ∧
    (loop (setSampleTime (-1) (bench 1 false []))).millisCalls = 1 := by
  decide

/-! ## Setting the sample time -/

/-- C17: `setSampleTime` sets the sample interval and leaves every other member
as it is, in particular the selected device type, its label, dataReady and the
cached readings; `isPmSensorConfigured()` is true exactly when the device type is
at least 0; on an object on which `init()` has never run (device type -1),
`setSampleTime(5)` followed by `getPmDeviceTypeSelected()` gives -1 and
`isPmSensorConfigured()` gives false. -/
theorem setSampleTime_only_interval (seconds : Int) (s : Sensors) :
    setSampleTime seconds s = { s with sample_time := seconds } ∧
    (setSampleTime seconds s).sample_time = seconds ∧
    getPmDeviceTypeSelected (setSampleTime seconds s) = getPmDeviceTypeSelected s ∧
    getPmDeviceSelected (setSampleTime seconds s) = getPmDeviceSelected s ∧
    isDataReady (setSampleTime seconds s) = isDataReady s ∧
    getPM1 (setSampleTime seconds s) = getPM1 s ∧
    getPM25 (setSampleTime seconds s) = getPM25 s ∧
    getPM10 (setSampleTime seconds s) = getPM10 s ∧
    (isPmSensorConfigured s = true ↔ 0 ≤ s.device_type) ∧
    (isPmSensorConfigured (setSampleTime seconds s) = true ↔ 0 ≤ s.device_type) ∧
    (s.device_type = -1 →
      getPmDeviceTypeSelected (setSampleTime 5 s) = -1 ∧
      isPmSensorConfigured (setSampleTime 5 s) = false) ∧
    (∀ (sample_time : Int) (retry : Nat) (charSigned : Bool) (serial : List (List Nat))
        (clock : Nat → Nat),
      getPmDeviceTypeSelected (setSampleTime 5 (fresh sample_time retry charSigned serial clock))
        = -1 ∧
      isPmSensorConfigured (setSampleTime 5 (fresh sample_time retry charSigned serial clock))
        = false) := by
  refine ⟨rfl, rfl, rfl, rfl, rfl, rfl, rfl, rfl, ?_, ?_, ?_, ?_⟩
  · simp [isPmSensorConfigured]
  · simp [isPmSensorConfigured, setSampleTime]
  · intro h
    refine ⟨h, ?_⟩
    simp [isPmSensorConfigured, setSampleTime, h]
  · intro st retry cs serial clock
    exact ⟨rfl, by simp [isPmSensorConfigured, setSampleTime, fresh]⟩

/-- Witness of C17: the example program's `setSampleTime(5)` on a fresh object. -/
theorem setSampleTime_only_interval_witness :
    (fresh 1 1000 false [] (fun n => n)).device_type = -1 ∧
    getPmDeviceTypeSelected (setSampleTime 5 (fresh 1 1000 false [] (fun n => n))) = -1 ∧
    isPmSensorConfigured (setSampleTime 5 (fresh 1 1000 false [] (fun n => n))) = false :=
  ⟨rfl,
    ((setSampleTime_only_interval 5 (fresh 1 1000 false [] (fun n => n))).2.2.2.2.2.2.2.2.2.2.1
      rfl).1,
    ((setSampleTime_only_interval 5 (fresh 1 1000 false [] (fun n => n))).2.2.2.2.2.2.2.2.2.2.1
      rfl).2⟩

/-! ## The Sensirion init protocol -/

/-- C19 (as the code has it): `pmSensirionInit` invokes the four driver steps
once each and returns the answer of the start step, for every combination of
outcomes: a failed communication start, probe or reset never prevents
detection, only a failed start does; `pmSensorAutoDetect` for Sensirion succeeds,
selecting Sensirion, exactly when the start step succeeds. -/
theorem pmSensirionInit_start_decides (s : Sensors) :
    (pmSensirionInit s).1 = s.sps30.startRet s.sps30.startCalls ∧
    (pmSensirionInit s).2.sps30.beginCalls = s.sps30.beginCalls + 1 ∧
    (pmSensirionInit s).2.sps30.probeCalls = s.sps30.probeCalls + 1 ∧
    (pmSensirionInit s).2.sps30.resetCalls = s.sps30.resetCalls + 1 ∧
    (pmSensirionInit s).2.sps30.startCalls = s.sps30.startCalls + 1 ∧
    (pmSensorAutoDetect Sensirion s).1 = s.sps30.startRet s.sps30.startCalls ∧
    (s.sps30.startRet s.sps30.startCalls = true →
      (pmSensorAutoDetect Sensirion s).2.device_type = Sensirion ∧
      (pmSensorAutoDetect Sensirion s).2.device_selected = "SENSIRION") := by
  have he := pmSensirionInit_eq s
  have h1 : (pmSensirionInit s).1 = s.sps30.startRet s.sps30.startCalls := by rw [he]; rfl
  have he2 := pmSensirionInit_eq (enterAutoDetect s)
  have h2 : (pmSensirionInit (enterAutoDetect s)).1 = s.sps30.startRet s.sps30.startCalls := by
    rw [he2]; rfl
  refine ⟨h1, by rw [he]; rfl, by rw [he]; rfl, by rw [he]; rfl, by rw [he]; rfl, ?_, ?_⟩
  · unfold pmSensorAutoDetect
    simp only [if_true]
    cases hst : s.sps30.startRet s.sps30.startCalls with
    | true => rw [hst] at h2; rw [if_pos h2]
    | false => rw [hst] at h2; rw [if_neg (by rw [h2]; simp)]
  · intro hst
    rw [hst] at h2
    unfold pmSensorAutoDetect
    simp only [if_true]
    rw [if_pos h2]
    exact ⟨rfl, rfl⟩

/-- Witness of C19 as amended: a driver whose communication start, probe and
reset fail and whose start succeeds. -/
theorem pmSensirionInit_start_decides_witness :
    ({ bench 1 false [] with sps30 := sps30StartOnly }).sps30.startRet
      ({ bench 1 false [] with sps30 := sps30StartOnly }).sps30.startCalls = true ∧
    (pmSensorAutoDetect Sensirion { bench 1 false [] with sps30 := sps30StartOnly }).2.device_type
      = Sensirion :=
  ⟨rfl,
    ((pmSensirionInit_start_decides { bench 1 false [] with sps30 := sps30StartOnly }).2.2.2.2.2.2
      rfl).1⟩

/-- Counterexample to C19 as stated: with a driver whose reset step fails and
whose start step succeeds, `pmSensirionInit` returns true and the detection
attempt selects Sensirion. -/
theorem pmSensirionInit_true_after_failed_reset :
    (spsReset (spsProbe (spsBegin
      { bench 1 false [] with sps30 := sps30StartOnly }).2).2).1 = false ∧
    (spsStart (spsReset (spsProbe (spsBegin
      { bench 1 false [] with sps30 := sps30StartOnly }).2).2).2).1 = true ∧
    (pmSensirionInit { bench 1 false [] with sps30 := sps30StartOnly }).1 = true ∧
    (pmSensorAutoDetect Sensirion
      { bench 1 false [] with sps30 := sps30StartOnly }).2.device_type = Sensirion ∧
    ¬ ((pmSensirionInit { bench 1 false [] with sps30 := sps30StartOnly }).1 = true ↔
      ((spsReset (spsProbe (spsBegin
          { bench 1 false [] with sps30 := sps30StartOnly }).2).2).1 = true ∧
        (spsStart (spsReset (spsProbe (spsBegin
          { bench 1 false [] with sps30 := sps30StartOnly }).2).2).2).1 = true)) := by
  decide

/-! ## The string getters -/

theorem sprintf03d_length (n : Nat) :
    (sprintf03d n).length = max 3 (Nat.digits 10 n).length := by
  unfold sprintf03d
  simp only [List.length_append, List.length_replicate, List.length_map, List.length_reverse]
  omega

/-- The rendering has at most 4 characters exactly for the values below 10000. -/
theorem sprintf03d_length_le_four (n : Nat) : (sprintf03d n).length ≤ 4 ↔ n < 10000 := by
  rw [sprintf03d_length]
  constructor
  · intro h
    have h1 : (Nat.digits 10 n).length ≤ 4 := by omega
    have h2 := Nat.lt_base_pow_length_digits (b := 10) (m := n) (by decide)
    have h3 : 10 ^ (Nat.digits 10 n).length ≤ 10 ^ 4 := Nat.pow_le_pow_right (by decide) h1
    omega
  · intro h
    by_cases h0 : n = 0
    · subst h0; simp
    · have h2 := Nat.base_pow_length_digits_le 10 n (by decide) h0
      have h3 : (Nat.digits 10 n).length < 5 := by
        by_contra hc
        have h4 : 10 ^ 5 ≤ 10 ^ (Nat.digits 10 n).length :=
          Nat.pow_le_pow_right (by decide) (by omega)
        omega
      omega

/-- For a value below 1000 the rendering is its three decimal digits. -/
theorem sprintf03d_three_digits (n : Nat) (h : n < 1000) :
    sprintf03d n
      = [Char.ofNat (48 + n / 100), Char.ofNat (48 + n / 10 % 10), Char.ofNat (48 + n % 10)] := by
  unfold sprintf03d
  by_cases h0 : n = 0
  · subst h0; simp
  · have d1 : Nat.digits 10 n = n % 10 :: Nat.digits 10 (n / 10) :=
      Nat.digits_def' (by decide) (by omega)
    by_cases h1 : n / 10 = 0
    · have e1 : n / 100 = 0 := by omega
      rw [d1, h1, e1]
      simp
    · have d2 : Nat.digits 10 (n / 10) = n / 10 % 10 :: Nat.digits 10 (n / 10 / 10) :=
        Nat.digits_def' (by decide) (by omega)
      have e2 : n / 10 / 10 = n / 100 := by omega
      by_cases h2 : n / 100 = 0
      · rw [d1, d2, e2, h2]
        simp
      · have d3 : Nat.digits 10 (n / 100) = n / 100 % 10 :: Nat.digits 10 (n / 100 / 10) :=
          Nat.digits_def' (by decide) (by omega)
        have e3 : n / 100 / 10 = 0 := by omega
        have e4 : n / 100 % 10 = n / 100 := by omega
        rw [d1, d2, e2, d3, e3, e4]
        simp

/-- C20 (what the code does): with Honeywell selected, the complete frame
0x42,0x4D,0,0,0,0,0xFF,0xFF,0x00,0x32,... is accepted (pm10 = 50 is not above
1000) and leaves pm25 = 65535; `getStringPM25` then renders the five characters
"65535", which with the terminator are 6 bytes for the 5-byte `output`. -/
theorem getStringPM25_five_characters :
    (pmSensorRead (withHoneywell
      (bench 1 false [padded 0x42 0x4D 0 0 0 0 0xFF 0xFF 0x00 0x32]))).1 = true ∧
    getPM25 (pmSensorRead (withHoneywell
      (bench 1 false [padded 0x42 0x4D 0 0 0 0 0xFF 0xFF 0x00 0x32]))).2 = 65535 ∧
    getStringPM25 (pmSensorRead (withHoneywell
      (bench 1 false [padded 0x42 0x4D 0 0 0 0 0xFF 0xFF 0x00 0x32]))).2
      = ['6', '5', '5', '3', '5'] ∧
    outputSize < (getStringPM25 (pmSensorRead (withHoneywell
      (bench 1 false [padded 0x42 0x4D 0 0 0 0 0xFF 0xFF 0x00 0x32]))).2).length + 1 := by
  have hv : getPM25 (pmSensorRead (withHoneywell
      (bench 1 false [padded 0x42 0x4D 0 0 0 0 0xFF 0xFF 0x00 0x32]))).2 = 65535 := by
    decide
  have hs : getStringPM25 (pmSensorRead (withHoneywell
      (bench 1 false [padded 0x42 0x4D 0 0 0 0 0xFF 0xFF 0x00 0x32]))).2
      = ['6', '5', '5', '3', '5'] := by
    unfold getStringPM25
    rw [hv]
    simp [sprintf03d]
  refine ⟨by decide, hv, hs, ?_⟩
  rw [hs]
  decide

end CanAirIO
